import Mathlib

/-!
Shallow embedding of the Transform core of the e-commerce ETL pipeline
(`src/transform/*.py`): dimension builders (date, products, payment type,
customers), fact builders (orders, cohort retention) and the orchestrator.
Tables are lists of row structures; numeric columns are rationals, nullable
columns are `Option`, datetimes are a month/day/second structure ordered
lexicographically.  Timestamps stamped by `Timestamp.now()` in the source are
threaded as an explicit `now` parameter.
-/

/-- A datetime: absolute month index (`year * 12 + (month - 1)`), zero-based
day within the month, and second within the day.  The usual datetime order is
the lexicographic order on these components. -/
structure Ts where
  month : Int
  day : Nat
  sec : Nat
deriving DecidableEq, Repr

/-- The zero datetime (month index 0, day 0, second 0), used as the neutral
stamp when timestamp columns are erased. -/
def tsEpoch : Ts := ⟨0, 0, 0⟩

/-- Datetime comparison (lexicographic on month, day, second). -/
def tsLe (a b : Ts) : Prop :=
  a.month < b.month ∨ (a.month = b.month ∧
    (a.day < b.day ∨ (a.day = b.day ∧ a.sec ≤ b.sec)))

instance (a b : Ts) : Decidable (tsLe a b) := by
  unfold tsLe; infer_instance

theorem tsLe_refl (a : Ts) : tsLe a a := by
  simp [tsLe]

theorem tsLe_total (a b : Ts) : tsLe a b ∨ tsLe b a := by
  unfold tsLe
  rcases lt_trichotomy a.month b.month with h | h | h
  · exact Or.inl (Or.inl h)
  · rcases Nat.lt_trichotomy a.day b.day with h2 | h2 | h2
    · exact Or.inl (Or.inr ⟨h, Or.inl h2⟩)
    · rcases Nat.le_total a.sec b.sec with h3 | h3
      · exact Or.inl (Or.inr ⟨h, Or.inr ⟨h2, h3⟩⟩)
      · exact Or.inr (Or.inr ⟨h.symm, Or.inr ⟨h2.symm, h3⟩⟩)
    · exact Or.inr (Or.inr ⟨h.symm, Or.inl h2⟩)
  · exact Or.inr (Or.inl h)

theorem tsLe_trans {a b c : Ts} (h1 : tsLe a b) (h2 : tsLe b c) : tsLe a c := by
  unfold tsLe at *
  rcases h1 with h1 | ⟨e1, h1⟩
  · rcases h2 with h2 | ⟨e2, _⟩
    · exact Or.inl (h1.trans h2)
    · exact Or.inl (e2 ▸ h1)
  · rcases h2 with h2 | ⟨e2, h2⟩
    · exact Or.inl (e1 ▸ h2)
    · refine Or.inr ⟨e1.trans e2, ?_⟩
      rcases h1 with h1 | ⟨d1, h1⟩
      · rcases h2 with h2 | ⟨d2, _⟩
        · exact Or.inl (h1.trans h2)
        · exact Or.inl (d2 ▸ h1)
      · rcases h2 with h2 | ⟨d2, h2⟩
        · exact Or.inl (d1 ▸ h2)
        · exact Or.inr ⟨d1.trans d2, h1.trans h2⟩

/-- Month index of the earlier of two datetimes is at most the later's. -/
theorem tsLe_month_le {a b : Ts} (h : tsLe a b) : a.month ≤ b.month := by
  rcases h with h | ⟨e, _⟩
  · exact le_of_lt h
  · exact le_of_eq e

/-- Binary minimum of two datetimes. -/
def tsMin2 (a b : Ts) : Ts := if tsLe a b then a else b

/-- Binary maximum of two datetimes. -/
def tsMax2 (a b : Ts) : Ts := if tsLe a b then b else a

/-- Minimum of a nonempty list of datetimes, written with an explicit head
(`pl.col(...).min()` over a group). -/
def tsMinOf (h : Ts) (t : List Ts) : Ts := t.foldl tsMin2 h

/-- Maximum of a nonempty list of datetimes (`pl.col(...).max()`). -/
def tsMaxOf (h : Ts) (t : List Ts) : Ts := t.foldl tsMax2 h

theorem tsMin2_le_left (a b : Ts) : tsLe (tsMin2 a b) a := by
  unfold tsMin2
  split
  · exact tsLe_refl a
  · next hn => rcases tsLe_total a b with h | h
               · exact absurd h hn
               · exact h

theorem tsMin2_le_right (a b : Ts) : tsLe (tsMin2 a b) b := by
  unfold tsMin2
  split
  · next h => exact h
  · exact tsLe_refl b

theorem tsMin2_mem (a b : Ts) : tsMin2 a b = a ∨ tsMin2 a b = b := by
  unfold tsMin2; split <;> simp

/-- The running minimum only decreases along a fold. -/
theorem tsMinOf_le_start (h : Ts) (t : List Ts) : tsLe (tsMinOf h t) h := by
  induction t generalizing h with
  | nil => exact tsLe_refl h
  | cons x xs ih =>
      exact tsLe_trans (ih (tsMin2 h x)) (tsMin2_le_left h x)

/-- The fold minimum is a lower bound for every list element. -/
theorem tsMinOf_le_mem (h : Ts) (t : List Ts) {x : Ts} (hx : x ∈ t) :
    tsLe (tsMinOf h t) x := by
  induction t generalizing h with
  | nil => cases hx
  | cons y ys ih =>
      rcases List.mem_cons.mp hx with rfl | hx2
      · exact tsLe_trans (tsMinOf_le_start (tsMin2 h x) ys) (tsMin2_le_right h x)
      · exact ih (tsMin2 h y) hx2

/-- The fold minimum is one of the candidates. -/
theorem tsMinOf_mem (h : Ts) (t : List Ts) : tsMinOf h t = h ∨ tsMinOf h t ∈ t := by
  induction t generalizing h with
  | nil => exact Or.inl rfl
  | cons y ys ih =>
      rcases ih (tsMin2 h y) with he | hm
      · rcases tsMin2_mem h y with h2 | h2
        · exact Or.inl (he.trans h2)
        · exact Or.inr (by simp [tsMinOf] at he ⊢; exact Or.inl (he.trans h2))
      · exact Or.inr (List.mem_cons_of_mem y hm)

/-- Round a rational to two decimal places (`.round(2)` on a numeric column). -/
def round2 (q : ℚ) : ℚ := (round (q * 100) : ℤ) / 100

/-- Days-from-civil-date (days since 1970-01-01 of year/month/day), the
arithmetic realized by the datetime library for date subtraction. -/
def daysFromCivil (y m d : Int) : Int :=
  let y2 := if m ≤ 2 then y - 1 else y
  let era := Int.fdiv y2 400
  let yoe := y2 - era * 400
  let mp := Int.fmod (m + 9) 12
  let doy := Int.fdiv (153 * mp + 2) 5 + d - 1
  let doe := yoe * 365 + Int.fdiv yoe 4 - Int.fdiv yoe 100 + doy
  era * 146097 + doe - 719468

/-- Civil date (year, month, day) of a day index (days since 1970-01-01), the
arithmetic realized by the datetime library for `strftime`. -/
def civilFromDays (z0 : Int) : Int × Int × Int :=
  let z := z0 + 719468
  let era := Int.fdiv z 146097
  let doe := z - era * 146097
  let yoe := Int.fdiv (doe - Int.fdiv doe 1460 + Int.fdiv doe 36524 - Int.fdiv doe 146096) 365
  let y := yoe + era * 400
  let doy := doe - (365 * yoe + Int.fdiv yoe 4 - Int.fdiv yoe 100)
  let mp := Int.fdiv (5 * doy + 2) 153
  let d := doy - Int.fdiv (153 * mp + 2) 5 + 1
  let m := mp + (if mp < 10 then 3 else -9)
  (if m ≤ 2 then y + 1 else y, m, d)

/-- Day index (days since the epoch) of the first day of an absolute month. -/
def monthStartDays (m : Int) : Int :=
  daysFromCivil (Int.fdiv m 12) (Int.fmod m 12 + 1) 1

/-- Absolute day index of a datetime's calendar date (`.dt.date`). -/
def Ts.dayIndex (t : Ts) : Int := monthStartDays t.month + t.day

/-- Absolute second index of a datetime. -/
def Ts.secIndex (t : Ts) : Int := t.dayIndex * 86400 + t.sec

/-- Whole-day difference between two datetimes (`(b - a).dt.days`, the floor
of the timedelta in days). -/
def daysBetween (a b : Ts) : Int := Int.fdiv (b.secIndex - a.secIndex) 86400

/-- `int(strftime(date, "%Y%m%d"))` for a day index. -/
def dateKeyOfDay (z : Int) : Int :=
  let c := civilFromDays z
  c.1 * 10000 + c.2.1 * 100 + c.2.2

/-- `strftime(date, "%Y-%m-%d")` membership is modelled by comparing civil
date triples: a holiday list is a list of (year, month, day) triples. -/
def isHolidayDay (holidays : List (Int × Int × Int)) (z : Int) : Bool :=
  decide (civilFromDays z ∈ holidays)

/-- ISO weekday of a day index, `1 = Monday .. 7 = Sunday`
(`polars .dt.weekday()`). -/
def isoWeekday (z : Int) : Int := Int.fmod (z + 3) 7 + 1

/-- Day of the year (1-based) of a day index. -/
def dayOfYear (z : Int) : Int :=
  z - daysFromCivil (civilFromDays z).1 1 1 + 1

/-- Number of ISO weeks in a year (52 or 53): December 28 always lies in the
last ISO week of its year. -/
def isoWeeksInYear (y : Int) : Int :=
  let z := daysFromCivil y 12 28
  Int.fdiv (dayOfYear z - isoWeekday z + 10) 7

/-- ISO week number of a day index (`polars .dt.week()`). -/
def isoWeek (z : Int) : Int :=
  let y := (civilFromDays z).1
  let w := Int.fdiv (dayOfYear z - isoWeekday z + 10) 7
  if w < 1 then isoWeeksInYear (y - 1)
  else if isoWeeksInYear y < w then 1
  else w

/-- English month name (`strftime "%B"`). -/
def monthName (m : Int) : String :=
  if m = 1 then "January" else if m = 2 then "February"
  else if m = 3 then "March" else if m = 4 then "April"
  else if m = 5 then "May" else if m = 6 then "June"
  else if m = 7 then "July" else if m = 8 then "August"
  else if m = 9 then "September" else if m = 10 then "October"
  else if m = 11 then "November" else "December"

/-- English day name (`strftime "%A"`), from the ISO weekday. -/
def dayName (w : Int) : String :=
  if w = 1 then "Monday" else if w = 2 then "Tuesday"
  else if w = 3 then "Wednesday" else if w = 4 then "Thursday"
  else if w = 5 then "Friday" else if w = 6 then "Saturday"
  else "Sunday"

/-- One row of DIM_DATE.  `full_date` is the absolute day index; `date_str` is
the helper column that `FactOrdersBuilder.build` later assigns onto the date
dimension in place (absent, i.e. `none`, when the dimension is built). -/
structure DateRow where
  date_key : Int
  full_date : Int
  year : Int
  quarter : Int
  month : Int
  month_name : String
  week : Int
  day_of_month : Int
  day_of_week : Int
  day_name : String
  is_weekend : Bool
  is_holiday : Bool
  fiscal_year : Int
  fiscal_quarter : Int
  created_at : Ts
  date_str : Option Int
deriving DecidableEq, Repr

/-- Build the DIM_DATE row for one day index
(`DateDimensionBuilder.build`, per-day attribute derivation). -/
def mkDateRow (holidays : List (Int × Int × Int)) (now : Ts) (z : Int) : DateRow :=
  let c := civilFromDays z
  let wd := isoWeekday z
  { date_key := dateKeyOfDay z
    full_date := z
    year := c.1
    quarter := Int.fdiv (c.2.1 - 1) 3 + 1
    month := c.2.1
    month_name := monthName c.2.1
    week := isoWeek z
    day_of_month := c.2.2
    day_of_week := wd
    day_name := dayName wd
    is_weekend := decide (6 ≤ wd)
    is_holiday := isHolidayDay holidays z
    fiscal_year := c.1
    fiscal_quarter := Int.fdiv (c.2.1 - 1) 3 + 1
    created_at := now
    date_str := none }

/-- The fixed Brazilian holiday list hard-coded in `DateDimensionBuilder`. -/
def brazilHolidays : List (Int × Int × Int) :=
  [(2016, 1, 1), (2016, 2, 8), (2016, 2, 9), (2016, 3, 25),
   (2016, 4, 21), (2016, 5, 1), (2016, 9, 7), (2016, 10, 12),
   (2016, 11, 2), (2016, 11, 15), (2016, 12, 25),
   (2017, 1, 1), (2017, 2, 27), (2017, 2, 28), (2017, 4, 14),
   (2017, 4, 21), (2017, 5, 1), (2017, 9, 7), (2017, 10, 12),
   (2017, 11, 2), (2017, 11, 15), (2017, 12, 25),
   (2018, 1, 1), (2018, 2, 12), (2018, 2, 13), (2018, 3, 30),
   (2018, 4, 21), (2018, 5, 1), (2018, 9, 7), (2018, 10, 12),
   (2018, 11, 2), (2018, 11, 15), (2018, 12, 25)]

/-- `DateDimensionBuilder.build`: one row per day of the configured inclusive
range, generated by `pl.date_range(start, end, interval="1d")`.  `startDay`
and `endDay` are the day indices of the parsed configured dates. -/
def buildDimDate (startDay endDay : Int) (now : Ts) : List DateRow :=
  (List.range (endDay - startDay + 1).toNat).map
    (fun i : ℕ => mkDateRow brazilHolidays now (startDay + (i : Int)))

theorem mem_buildDimDate {s e : Int} {now : Ts} {r : DateRow}
    (hr : r ∈ buildDimDate s e now) :
    ∃ i : ℕ, (i : Int) < e - s + 1 ∧ r = mkDateRow brazilHolidays now (s + i) := by
  unfold buildDimDate at hr
  rcases List.mem_map.mp hr with ⟨i, hi, hEq⟩
  refine ⟨i, ?_, hEq.symm⟩
  have := List.mem_range.mp hi
  omega

/-- A list on which a Boolean predicate never holds filters to the empty
list. -/
theorem filter_eq_nil_of_none {α : Type} {p : α → Bool} {l : List α}
    (h : ∀ x ∈ l, p x = false) : l.filter p = [] := by
  induction l with
  | nil => rfl
  | cons a t ih =>
      rw [List.filter_cons, if_neg (by simp [h a (List.mem_cons_self a t)])]
      exact ih (fun x hx => h x (List.mem_cons_of_mem a hx))

/-- Two Boolean predicates agreeing on a list filter it identically. -/
theorem filter_congr_own {α : Type} {p q : α → Bool} {l : List α}
    (h : ∀ x ∈ l, p x = q x) : l.filter p = l.filter q := by
  induction l with
  | nil => rfl
  | cons a t ih =>
      rw [List.filter_cons, List.filter_cons, h a (List.mem_cons_self a t),
        ih (fun x hx => h x (List.mem_cons_of_mem a hx))]

/-- A duplicate-free list containing an element filters down to exactly that
element. -/
theorem filter_eq_singleton_of_nodup {α : Type} [DecidableEq α] {l : List α}
    {a : α} (hn : l.Nodup) (ha : a ∈ l) :
    l.filter (fun x => x = a) = [a] := by
  induction l with
  | nil => cases ha
  | cons b t ih =>
      rcases List.nodup_cons.mp hn with ⟨hb, ht⟩
      rcases List.mem_cons.mp ha with h1 | hat
      · subst h1
        rw [List.filter_cons, if_pos (by simp)]
        rw [filter_eq_nil_of_none (p := fun x => decide (x = a))
          (fun x hx => by simp; exact fun hxa => hb (hxa ▸ hx))]
      · rw [List.filter_cons, if_neg (by simp; exact fun h2 => hb (h2 ▸ hat))]
        exact ih ht hat

/-- Filtering a mapped list is mapping the filtered list. -/
theorem filter_map_eq_map_filter {α β : Type} (f : α → β) (p : β → Bool)
    (l : List α) :
    (l.map f).filter p = (l.filter (fun a => p (f a))).map f := by
  induction l with
  | nil => rfl
  | cons a t ih =>
      by_cases h : p (f a)
      · simp [List.filter, h, ih]
      · simp [List.filter, h, ih]

/-- C8: for a well-formed configured range `startDay ≤ endDay`, the date
dimension has exactly one row per day of the inclusive range, every row's day
lies in the range, and every row satisfies
`date_key = int(strftime(full_date, "%Y%m%d"))`. -/
theorem dimDate_rowset_and_key (s e : Int) (now : Ts) (hse : s ≤ e) :
    (∀ d : Int, s ≤ d → d ≤ e →
      ((buildDimDate s e now).filter (fun r => r.full_date = d)).length = 1) ∧
    (∀ r ∈ buildDimDate s e now,
      s ≤ r.full_date ∧ r.full_date ≤ e ∧ r.date_key = dateKeyOfDay r.full_date) := by
  constructor
  · intro d hsd hde
    unfold buildDimDate
    rw [filter_map_eq_map_filter, List.length_map]
    have hcongr : (List.range (e - s + 1).toNat).filter
          (fun i : ℕ =>
            decide ((mkDateRow brazilHolidays now (s + (i : Int))).full_date = d))
        = (List.range (e - s + 1).toNat).filter (fun i : ℕ => i = (d - s).toNat) := by
      apply filter_congr_own
      intro i hi
      have hfd : (mkDateRow brazilHolidays now (s + (i : Int))).full_date
          = s + (i : Int) := rfl
      have hirange := List.mem_range.mp hi
      simp only [hfd, decide_eq_decide]
      omega
    rw [hcongr, filter_eq_singleton_of_nodup (List.nodup_range _)]
    · rfl
    · apply List.mem_range.mpr
      omega
  · intro r hr
    rcases mem_buildDimDate hr with ⟨i, hi, rfl⟩
    have hfd : (mkDateRow brazilHolidays now (s + i)).full_date = s + i := rfl
    refine ⟨?_, ?_, rfl⟩
    · rw [hfd]; omega
    · rw [hfd]; omega

/-- Witness for C8 at the concrete two-day range `[0, 1]`
(1970-01-01 .. 1970-01-02). -/
theorem dimDate_rowset_and_key_witness :
    ((0 : Int) ≤ 1) ∧
    ((∀ d : Int, 0 ≤ d → d ≤ 1 →
      ((buildDimDate 0 1 tsEpoch).filter (fun r => r.full_date = d)).length = 1) ∧
    (∀ r ∈ buildDimDate 0 1 tsEpoch,
      0 ≤ r.full_date ∧ r.full_date ≤ 1 ∧ r.date_key = dateKeyOfDay r.full_date)) :=
  ⟨by decide, dimDate_rowset_and_key 0 1 tsEpoch (by decide)⟩

/-- One row of the orders extract (`OrdersExtractor.extract`), date columns
parsed; the purchase timestamp is taken non-null (the extractor aborts on
null critical identifiers and the transform treats it as always present). -/
structure OrderRow where
  order_id : String
  customer_id : String
  order_status : String
  order_purchase_timestamp : Ts
  order_delivered_customer_date : Option Ts
  order_estimated_delivery_date : Option Ts
deriving DecidableEq, Repr

/-- One row of the order-items extract (`OrderItemsExtractor.extract`). -/
structure ItemRow where
  order_id : String
  order_item_id : Nat
  product_id : String
  seller_id : String
  price : ℚ
  freight_value : ℚ
deriving DecidableEq, Repr

/-- The derived `item_total = price + freight_value` column the extractor
adds. -/
def itemTotal (r : ItemRow) : ℚ := r.price + r.freight_value

/-- One row of the payments extract (`PaymentsExtractor.extract`);
`payment_type` may be null (logged as a warning, not fatal). -/
structure PaymentRow where
  order_id : String
  payment_type : Option String
  payment_installments : Nat
  payment_value : ℚ
deriving DecidableEq, Repr

/-- One row of the reviews extract (`ReviewsExtractor.extract`), restricted to
the columns the fact builder keeps; `review_score` may be null. -/
structure ReviewRow where
  order_id : String
  review_score : Option ℚ
deriving DecidableEq, Repr

/-- One row of the customers extract (`CustomersExtractor.extract`). -/
structure CustomerSrcRow where
  customer_id : String
  customer_unique_id : String
  customer_city : Option String
  customer_state : Option String
deriving DecidableEq, Repr

/-- One row of the products extract (`ProductsExtractor.extract`), including
the derived `product_volume_cm3` and `has_photos` columns added there. -/
structure ProductSrcRow where
  product_id : String
  product_category_name : Option String
  product_weight_g : Option ℚ
  product_length_cm : Option ℚ
  product_height_cm : Option ℚ
  product_width_cm : Option ℚ
  product_photos_qty : Option ℚ
deriving DecidableEq, Repr

/-- One row of DIM_CUSTOMERS (`CustomerDimensionBuilder.build` output). -/
structure CustRow where
  customer_key : Nat
  customer_id : String
  customer_unique_id : String
  customer_city : Option String
  customer_state : Option String
  customer_region : String
  customer_segment : String
  first_order_date : Option Ts
  last_order_date : Option Ts
  total_orders : Option Nat
  delivered_orders : Option Nat
  total_spent : Option ℚ
  avg_order_value : Option ℚ
  lifetime_value : Option ℚ
  days_as_customer : Option Int
  purchase_frequency_annual : Option ℚ
  created_at : Ts
  updated_at : Ts
deriving DecidableEq, Repr

/-- One row of DIM_PRODUCTS (`ProductDimensionBuilder.build` output). -/
structure ProductRow where
  product_key : Nat
  product_id : String
  product_category_name : Option String
  product_category_english : String
  product_category_segment : String
  product_weight_g : Option ℚ
  product_length_cm : Option ℚ
  product_height_cm : Option ℚ
  product_width_cm : Option ℚ
  product_volume_cm3 : Option ℚ
  product_photos_qty : Option ℚ
  has_photos : Bool
  created_at : Ts
deriving DecidableEq, Repr

/-- One row of DIM_PAYMENT_TYPE (`PaymentTypeDimensionBuilder.build`). -/
structure PaymentTypeRow where
  payment_type_key : Nat
  payment_type : String
  payment_category : String
  created_at : Ts
deriving DecidableEq, Repr

/-- `dict(zip(keys, values))` lookup: with duplicate keys the last pair wins,
missing keys map to null. -/
def lookupLast {α β : Type} [DecidableEq α] (l : List (α × β)) (k : α) :
    Option β :=
  (l.reverse.find? (fun p => decide (p.1 = k))).map (fun p => p.2)

/-- Order-level aggregate of order items (`fact_orders.py`, step 2:
polars `group_by('order_id')` with count/sum/first aggregations). -/
structure ItemAgg where
  order_item_count : Nat
  order_subtotal : ℚ
  order_freight_total : ℚ
  order_total_value : ℚ
  primary_product_id : String
  seller_id : String
deriving DecidableEq, Repr

/-- The item aggregate joined to one order id: `none` when the order has no
items (the group is absent). -/
def itemAggFor (items : List ItemRow) (oid : String) : Option ItemAgg :=
  match items.filter (fun r => decide (r.order_id = oid)) with
  | [] => none
  | r :: rs => some
      { order_item_count := (r :: rs).length
        order_subtotal := ((r :: rs).map (fun x => x.price)).sum
        order_freight_total := ((r :: rs).map (fun x => x.freight_value)).sum
        order_total_value := ((r :: rs).map itemTotal).sum
        primary_product_id := r.product_id
        seller_id := r.seller_id }

/-- Order-level aggregate of payments (`fact_orders.py`, step 3:
sum of values, first payment type, max installments). -/
structure PayAgg where
  payment_value : ℚ
  payment_type : Option String
  payment_installments : Nat
deriving DecidableEq, Repr

/-- The payment aggregate joined to one order id: `none` when the order has no
payment records. -/
def payAggFor (payments : List PaymentRow) (oid : String) : Option PayAgg :=
  match payments.filter (fun r => decide (r.order_id = oid)) with
  | [] => none
  | p :: ps => some
      { payment_value := ((p :: ps).map (fun x => x.payment_value)).sum
        payment_type := p.payment_type
        payment_installments :=
          ((p :: ps).map (fun x => x.payment_installments)).foldl max 0 }

/-- An order row after the left joins to item and payment aggregates with the
null-filling of `fact_orders.py` steps 4-5: numeric item aggregates and
`payment_value` filled with 0, `payment_installments` filled with 1,
`payment_type` filled with the sentinel `"not_defined"`; the primary product
and seller stay null for orders without items. -/
structure OrderStage where
  order_id : String
  customer_id : String
  order_status : String
  order_purchase_timestamp : Ts
  order_delivered_customer_date : Option Ts
  order_estimated_delivery_date : Option Ts
  order_item_count : Nat
  order_subtotal : ℚ
  order_freight_total : ℚ
  order_total_value : ℚ
  primary_product_id : Option String
  seller_id : Option String
  payment_value : ℚ
  payment_type : String
  payment_installments : Nat
deriving DecidableEq, Repr

/-- The stage row of one order after the item and payment joins and fills. -/
def orderStageOf (items : List ItemRow) (payments : List PaymentRow)
    (o : OrderRow) : OrderStage :=
  let ia := itemAggFor items o.order_id
  let pa := payAggFor payments o.order_id
  { order_id := o.order_id
    customer_id := o.customer_id
    order_status := o.order_status
    order_purchase_timestamp := o.order_purchase_timestamp
    order_delivered_customer_date := o.order_delivered_customer_date
    order_estimated_delivery_date := o.order_estimated_delivery_date
    order_item_count := (ia.map (fun a => a.order_item_count)).getD 0
    order_subtotal := (ia.map (fun a => a.order_subtotal)).getD 0
    order_freight_total := (ia.map (fun a => a.order_freight_total)).getD 0
    order_total_value := (ia.map (fun a => a.order_total_value)).getD 0
    primary_product_id := ia.map (fun a => a.primary_product_id)
    seller_id := ia.map (fun a => a.seller_id)
    payment_value := (pa.map (fun a => a.payment_value)).getD 0
    payment_type := ((pa.map (fun a => a.payment_type)).getD none).getD "not_defined"
    payment_installments := (pa.map (fun a => a.payment_installments)).getD 1 }

/-- Steps 4-5 of `FactOrdersBuilder.build`: left-join every order to its item
and payment aggregates and fill the nulls. -/
def ordersWithItemsPayments (orders : List OrderRow) (items : List ItemRow)
    (payments : List PaymentRow) : List OrderStage :=
  orders.map (orderStageOf items payments)

/-- Step 6 of `FactOrdersBuilder.build`: plain left merge with the reviews
subset on `order_id`.  The reviews are NOT aggregated first, so an order
matching several review rows is emitted once per review. -/
def mergeReviews (stage : List OrderStage) (reviews : List ReviewRow) :
    List (OrderStage × Option ℚ) :=
  stage.flatMap (fun w =>
    match reviews.filter (fun r => decide (r.order_id = w.order_id)) with
    | [] => [(w, none)]
    | r :: rs => (r :: rs).map (fun x => (w, x.review_score)))

/-- One row of FACT_ORDERS, in the final column selection of
`FactOrdersBuilder.build` (the intermediate `payment_type` column is dropped,
only its key survives). -/
structure FactRow where
  order_key : Nat
  customer_key : Option Nat
  product_key : Option Nat
  order_date_key : Option Int
  delivery_date_key : Option Int
  payment_type_key : Option Nat
  order_id : String
  order_status : String
  seller_id : Option String
  order_item_count : Nat
  order_subtotal : ℚ
  order_freight_total : ℚ
  order_total_value : ℚ
  payment_value : ℚ
  payment_installments : Nat
  delivery_days : Int
  estimated_delivery_days : Option Int
  delivery_delay_days : Int
  is_late_delivery : Bool
  is_completed_order : Bool
  review_score : Option ℚ
  has_review : Bool
  order_purchase_timestamp : Ts
  order_delivered_customer_date : Option Ts
  created_at : Ts
deriving DecidableEq, Repr

/-- Steps 7-9 of `FactOrdersBuilder.build` for a single merged row: delivery
metrics (nulls for undelivered orders filled with 0 / false; the estimated
delivery days column is not null-filled), foreign-key resolution through the
lookup dictionaries, surrogate key and timestamp. -/
def mkFactRow (custL : List (String × Nat)) (prodL : List (String × Nat))
    (payL : List (String × Nat)) (dateL : List (Int × Int)) (now : Ts)
    (k : Nat) (w : OrderStage × Option ℚ) : FactRow :=
  let o := w.1
  { order_key := k
    customer_key := lookupLast custL o.customer_id
    product_key := o.primary_product_id.bind (fun pid => lookupLast prodL pid)
    order_date_key := lookupLast dateL o.order_purchase_timestamp.dayIndex
    delivery_date_key :=
      o.order_delivered_customer_date.bind (fun d => lookupLast dateL d.dayIndex)
    payment_type_key := lookupLast payL o.payment_type
    order_id := o.order_id
    order_status := o.order_status
    seller_id := o.seller_id
    order_item_count := o.order_item_count
    order_subtotal := o.order_subtotal
    order_freight_total := o.order_freight_total
    order_total_value := o.order_total_value
    payment_value := o.payment_value
    payment_installments := o.payment_installments
    delivery_days :=
      match o.order_delivered_customer_date with
      | some d => daysBetween o.order_purchase_timestamp d
      | none => 0
    estimated_delivery_days :=
      o.order_estimated_delivery_date.map
        (fun d => daysBetween o.order_purchase_timestamp d)
    delivery_delay_days :=
      match o.order_delivered_customer_date, o.order_estimated_delivery_date with
      | some d, some ed => daysBetween ed d
      | _, _ => 0
    is_late_delivery :=
      match o.order_delivered_customer_date, o.order_estimated_delivery_date with
      | some d, some ed => decide (0 < daysBetween ed d)
      | _, _ => false
    is_completed_order := decide (o.order_status = "delivered")
    review_score := w.2
    has_review := w.2.isSome
    order_purchase_timestamp := o.order_purchase_timestamp
    order_delivered_customer_date := o.order_delivered_customer_date
    created_at := now }

/-- Emit the fact rows with consecutive surrogate keys starting at `k`
(`order_key = index + 1`). -/
def factRowsFrom (custL : List (String × Nat)) (prodL : List (String × Nat))
    (payL : List (String × Nat)) (dateL : List (Int × Int)) (now : Ts) :
    Nat → List (OrderStage × Option ℚ) → List FactRow
  | _, [] => []
  | k, w :: ws =>
      mkFactRow custL prodL payL dateL now k w ::
        factRowsFrom custL prodL payL dateL now (k + 1) ws

/-- `FactOrdersBuilder.build`: joins, delivery metrics, foreign keys, and the
in-place assignment of the helper `date_str` column onto the date dimension
(`dim_date['date_str'] = dim_date['full_date'].dt.strftime('%Y%m%d').astype(int)`).
Returns the fact table together with the date dimension as it is left after
the call (state passing for the mutation). -/
def buildFactOrders (orders : List OrderRow) (items : List ItemRow)
    (payments : List PaymentRow) (reviews : List ReviewRow)
    (dimCustomers : List CustRow) (dimProducts : List ProductRow)
    (dimPaymentType : List PaymentTypeRow) (dimDate : List DateRow)
    (now : Ts) : List FactRow × List DateRow :=
  let stage := ordersWithItemsPayments orders items payments
  let merged := mergeReviews stage reviews
  let dimDateUpd :=
    dimDate.map (fun r => { r with date_str := some (dateKeyOfDay r.full_date) })
  let custL := dimCustomers.map (fun r => (r.customer_id, r.customer_key))
  let prodL := dimProducts.map (fun r => (r.product_id, r.product_key))
  let payL := dimPaymentType.map (fun r => (r.payment_type, r.payment_type_key))
  let dateL := dimDateUpd.map (fun r => (r.full_date, r.date_key))
  (factRowsFrom custL prodL payL dateL now 1 merged, dimDateUpd)

theorem length_factRowsFrom (custL prodL payL : List (String × Nat))
    (dateL : List (Int × Int)) (now : Ts) :
    ∀ (k : Nat) (l : List (OrderStage × Option ℚ)),
      (factRowsFrom custL prodL payL dateL now k l).length = l.length := by
  intro k l
  induction l generalizing k with
  | nil => rfl
  | cons w ws ih => simp [factRowsFrom, ih]

/-- If the images of a list under `f` are duplicate-free, at most one element
maps to any given key. -/
theorem length_filter_le_one_of_nodup_map {α β : Type} [DecidableEq β]
    (f : α → β) {l : List α} (h : (l.map f).Nodup) (k : β) :
    (l.filter (fun x => decide (f x = k))).length ≤ 1 := by
  induction l with
  | nil => simp
  | cons a t ih =>
      rw [List.map_cons, List.nodup_cons] at h
      rw [List.filter_cons]
      by_cases hak : f a = k
      · rw [if_pos (by simp [hak])]
        have hnil : t.filter (fun x => decide (f x = k)) = [] := by
          apply filter_eq_nil_of_none
          intro x hx
          simp only [decide_eq_false_iff_not]
          intro hxk
          exact h.1 (by rw [← hak] at hxk; exact hxk ▸ List.mem_map_of_mem f hx)
        rw [hnil]
        simp
      · rw [if_neg (by simp [hak])]
        exact ih h.2

/-- With at most one review row per order id, the reviews left-merge emits
exactly one row per stage row. -/
theorem length_mergeReviews (stage : List OrderStage) (reviews : List ReviewRow)
    (h : (reviews.map (fun r => r.order_id)).Nodup) :
    (mergeReviews stage reviews).length = stage.length := by
  induction stage with
  | nil => rfl
  | cons w ws ih =>
      unfold mergeReviews at ih ⊢
      rw [List.flatMap_cons, List.length_append, ih]
      have hle := length_filter_le_one_of_nodup_map
        (fun r : ReviewRow => r.order_id) h w.order_id
      rcases hcase : reviews.filter (fun r : ReviewRow => decide (r.order_id = w.order_id)) with _ | ⟨r, rs⟩
      · simp [hcase]
        omega
      · rw [hcase] at hle
        simp only [List.length_cons] at hle
        have : rs = [] := List.length_eq_zero.mp (by omega)
        subst this
        simp [hcase]
        omega

/-- C1 (amended): when the orders extract has no duplicate `order_id` and the
reviews extract has at most one row per `order_id`, the fact table has exactly
one row per distinct order id of the orders extract: the item and payment
joins are against uniquely-keyed aggregates and never drop or duplicate an
order. -/
theorem factOrders_rowCount (orders : List OrderRow) (items : List ItemRow)
    (payments : List PaymentRow) (reviews : List ReviewRow)
    (dimC : List CustRow) (dimP : List ProductRow) (dimPT : List PaymentTypeRow)
    (dimD : List DateRow) (now : Ts)
    (h1 : (orders.map (fun o => o.order_id)).Nodup)
    (h2 : (reviews.map (fun r => r.order_id)).Nodup) :
    (buildFactOrders orders items payments reviews dimC dimP dimPT dimD now).1.length
      = ((orders.map (fun o => o.order_id)).dedup).length := by
  rw [List.dedup_eq_self.mpr h1, List.length_map]
  unfold buildFactOrders
  rw [length_factRowsFrom, length_mergeReviews _ _ h2]
  unfold ordersWithItemsPayments
  rw [List.length_map]

/-- Sample order used in concrete evaluations. -/
def oSample : OrderRow :=
  { order_id := "o1", customer_id := "c1", order_status := "delivered"
    order_purchase_timestamp := tsEpoch
    order_delivered_customer_date := none
    order_estimated_delivery_date := none }

/-- Two review rows for the same order (`order_id` not unique in the reviews
extract, which the extractor only warns about). -/
def rvSampleA : ReviewRow := { order_id := "o1", review_score := some 5 }

/-- Second review for the same sample order. -/
def rvSampleB : ReviewRow := { order_id := "o1", review_score := some 4 }

/-- C1 counterexample to the claim as stated: one order with two review rows
yields two fact rows, not one per distinct order id - the reviews left join
duplicates the order because reviews are not aggregated per order. -/
theorem factOrders_rowCount_counterexample :
    ¬ ((buildFactOrders [oSample] [] [] [rvSampleA, rvSampleB]
          [] [] [] [] tsEpoch).1.length
        = (([oSample].map (fun o => o.order_id)).dedup).length) := by
  decide

/-- C1 witness: with unique order ids and unique review order ids the row
count equals the distinct order-id count. -/
theorem factOrders_rowCount_witness :
    ((([oSample].map (fun o => o.order_id)).Nodup) ∧
      (([rvSampleA].map (fun r => r.order_id)).Nodup)) ∧
    (buildFactOrders [oSample] [] [] [rvSampleA] [] [] [] [] tsEpoch).1.length
      = (([oSample].map (fun o => o.order_id)).dedup).length :=
  ⟨⟨by decide, by decide⟩,
    factOrders_rowCount [oSample] [] [] [rvSampleA] [] [] [] [] tsEpoch
      (by decide) (by decide)⟩

/-- Every stage row survives the reviews left-merge (paired with some review
score or null). -/
theorem mem_mergeReviews_of_mem (stage : List OrderStage)
    (reviews : List ReviewRow) {w : OrderStage} (hw : w ∈ stage) :
    ∃ s ∈ mergeReviews stage reviews, s.1 = w := by
  unfold mergeReviews
  rcases hcase : reviews.filter (fun r : ReviewRow => decide (r.order_id = w.order_id)) with _ | ⟨r, rs⟩
  · refine ⟨(w, none), List.mem_flatMap.mpr ⟨w, hw, ?_⟩, rfl⟩
    rw [hcase]
    simp
  · refine ⟨(w, r.review_score), List.mem_flatMap.mpr ⟨w, hw, ?_⟩, rfl⟩
    rw [hcase]
    simp

/-- Every merged row yields a fact row (with some surrogate key). -/
theorem mem_factRowsFrom_of_mem (custL prodL payL : List (String × Nat))
    (dateL : List (Int × Int)) (now : Ts)
    {l : List (OrderStage × Option ℚ)} {s : OrderStage × Option ℚ}
    (hs : s ∈ l) (k : Nat) :
    ∃ j, mkFactRow custL prodL payL dateL now j s
      ∈ factRowsFrom custL prodL payL dateL now k l := by
  induction l generalizing k with
  | nil => cases hs
  | cons x xs ih =>
      rcases List.mem_cons.mp hs with rfl | hs2
      · exact ⟨k, List.mem_cons_self _ _⟩
      · rcases ih hs2 (k + 1) with ⟨j, hj⟩
        exact ⟨j, List.mem_cons_of_mem _ hj⟩

/-- C2 (amended): an order with no matching payment records still produces
fact rows; on them the missing payment aggregates are filled with
`payment_value = 0`, `payment_type = "not_defined"` and
`payment_installments = 1` (the code fills installments with 1, not 0). -/
theorem factOrders_noPayments_defaults (orders : List OrderRow)
    (items : List ItemRow) (payments : List PaymentRow)
    (reviews : List ReviewRow) (dimC : List CustRow) (dimP : List ProductRow)
    (dimPT : List PaymentTypeRow) (dimD : List DateRow) (now : Ts)
    (o : OrderRow) (ho : o ∈ orders)
    (hp : payments.filter (fun p : PaymentRow => decide (p.order_id = o.order_id)) = []) :
    (∀ w ∈ ordersWithItemsPayments orders items payments,
        w.order_id = o.order_id →
          w.payment_value = 0 ∧ w.payment_type = "not_defined" ∧
            w.payment_installments = 1) ∧
    (∃ fr ∈ (buildFactOrders orders items payments reviews
        dimC dimP dimPT dimD now).1,
      fr.order_id = o.order_id ∧ fr.payment_value = 0 ∧
        fr.payment_installments = 1) := by
  have hagg : payAggFor payments o.order_id = none := by
    unfold payAggFor
    rw [hp]
  constructor
  · intro w hw heq
    rcases List.mem_map.mp hw with ⟨o2, _, rfl⟩
    have heq2 : o2.order_id = o.order_id := heq
    have hagg2 : payAggFor payments o2.order_id = none := by rw [heq2, hagg]
    refine ⟨?_, ?_, ?_⟩ <;> simp [orderStageOf, hagg2]
  · have hwstage : orderStageOf items payments o ∈ ordersWithItemsPayments orders items payments :=
      List.mem_map_of_mem _ ho
    rcases mem_mergeReviews_of_mem _ reviews hwstage with ⟨s, hsmem, hfst⟩
    rcases mem_factRowsFrom_of_mem
        (dimC.map (fun r => (r.customer_id, r.customer_key)))
        (dimP.map (fun r => (r.product_id, r.product_key)))
        (dimPT.map (fun r => (r.payment_type, r.payment_type_key)))
        ((dimD.map (fun r => { r with date_str := some (dateKeyOfDay r.full_date) })).map
          (fun r => (r.full_date, r.date_key)))
        now hsmem 1 with ⟨j, hj⟩
    refine ⟨_, hj, ?_, ?_, ?_⟩
    · show s.1.order_id = o.order_id
      rw [hfst]
      rfl
    · show s.1.payment_value = 0
      rw [hfst]
      simp [orderStageOf, hagg]
    · show s.1.payment_installments = 1
      rw [hfst]
      simp [orderStageOf, hagg]

/-- C2 counterexample to the claim as stated: for an order with no payment
records the emitted fact row carries `payment_installments = 1`, not 0
(`fillna(1)` in the source). -/
theorem factOrders_noPayments_counterexample :
    ¬ (∀ fr ∈ (buildFactOrders [oSample] [] [] [] [] [] [] [] tsEpoch).1,
        fr.payment_installments = 0) := by
  decide

/-- C2 witness at a concrete one-order, zero-payment input. -/
theorem factOrders_noPayments_defaults_witness :
    ((oSample ∈ [oSample]) ∧
      (([] : List PaymentRow).filter
        (fun p : PaymentRow => decide (p.order_id = oSample.order_id)) = [])) ∧
    ((∀ w ∈ ordersWithItemsPayments [oSample] [] [],
        w.order_id = oSample.order_id →
          w.payment_value = 0 ∧ w.payment_type = "not_defined" ∧
            w.payment_installments = 1) ∧
    (∃ fr ∈ (buildFactOrders [oSample] [] [] [] [] [] [] [] tsEpoch).1,
      fr.order_id = oSample.order_id ∧ fr.payment_value = 0 ∧
        fr.payment_installments = 1)) :=
  ⟨⟨by decide, by decide⟩,
    factOrders_noPayments_defaults [oSample] [] [] [] [] [] [] [] tsEpoch
      oSample (by decide) (by decide)⟩

/-- A concrete date-dimension row (1970-01-01) without the `date_str` helper
column. -/
def ddSample : DateRow := mkDateRow brazilHolidays tsEpoch 0

/-- C3: `FactOrdersBuilder.build` mutates its `dim_date` input in place,
assigning the helper column `date_str` onto it; the date dimension after the
call is NOT the date dimension before the call, contradicting the immutability
the specification states. -/
theorem factOrders_mutates_dimDate :
    (buildFactOrders [] [] [] [] [] [] [] [ddSample] tsEpoch).2 ≠ [ddSample] ∧
    (buildFactOrders [] [] [] [] [] [] [] [ddSample] tsEpoch).2
      = [{ ddSample with date_str := some 19700101 }] := by
  constructor
  · decide
  · decide

/-- The externally configured business-rule thresholds
(`config['customer_segmentation']`). -/
structure BusinessRules where
  vip_customer_min_value : ℚ
  vip_customer_min_orders : Nat
  returning_customer_max_orders : Nat
deriving DecidableEq, Repr

/-- The externally configured CLV parameters (`config['clv_calculation']`). -/
structure ClvParams where
  estimated_lifespan_days : ℚ
deriving DecidableEq, Repr

/-- The configured region → state-code mapping (`config['regions']`), an
ordered association list as iterated by `_get_region`. -/
def RegionsConfig : Type := List (String × List String)

/-- `CustomerDimensionBuilder._get_region`: null state → "Unknown", first
region whose state list contains the state, otherwise "Other". -/
def getRegion (regions : RegionsConfig) (state : Option String) : String :=
  match state with
  | none => "Unknown"
  | some s =>
      match regions.find? (fun p => decide (s ∈ p.2)) with
      | some p => p.1
      | none => "Other"

/-- `CustomerDimensionBuilder._segment_customer`: null lifetime value counts
as 0; the branches are evaluated in the source's order. -/
def segmentCustomer (rules : BusinessRules) (total_orders : Nat)
    (lifetime_value : Option ℚ) : String :=
  let l := lifetime_value.getD 0
  if total_orders = 0 then "Inactive"
  else if rules.vip_customer_min_orders ≤ total_orders ∨
      rules.vip_customer_min_value ≤ l then "VIP"
  else if total_orders ≤ 1 then "New"
  else if total_orders ≤ rules.returning_customer_max_orders then "Returning"
  else "Loyal"

/-- The segmentation decision as the specification words it: 'Inactive' if
total_orders == 0; else 'VIP' if total_orders ≥ vip_min_orders or
lifetime_value ≥ vip_min_value; else 'New' if total_orders ≤ 1; else
'Returning' if total_orders ≤ returning_max_orders; else 'Loyal'. -/
def segmentSpec (rules : BusinessRules) (total_orders : Nat)
    (lifetime_value : Option ℚ) : String :=
  if total_orders = 0 then "Inactive"
  else if total_orders ≥ rules.vip_customer_min_orders ∨
      lifetime_value.getD 0 ≥ rules.vip_customer_min_value then "VIP"
  else if total_orders ≤ 1 then "New"
  else if total_orders ≤ rules.returning_customer_max_orders then "Returning"
  else "Loyal"

/-- Order-level revenue joined back to an order (`dim_customers.py` steps
4-5: polars sum of `item_total` per order, left join, `fillna(0)`). -/
def orderTotalOf (items : List ItemRow) (oid : String) : ℚ :=
  match items.filter (fun r : ItemRow => decide (r.order_id = oid)) with
  | [] => 0
  | r :: rs => ((r :: rs).map itemTotal).sum

/-- The per-customer aggregate of `dim_customers.py` steps 6-8 (counts, sums,
min/max purchase timestamps, the `max(days, 1)` floor, annualized purchase
frequency, CLV). -/
structure CustomerMetrics where
  total_orders : Nat
  total_spent : ℚ
  avg_order_value : ℚ
  first_order_date : Ts
  last_order_date : Ts
  delivered_orders : Nat
  days_as_customer : Int
  purchase_frequency_annual : ℚ
  lifetime_value : ℚ
deriving DecidableEq, Repr

/-- The customer-level aggregation group for one `customer_id`: `none` when
the customer has no orders (the group is absent from the join). -/
def customerMetricsFor (clv : ClvParams) (orders : List OrderRow)
    (items : List ItemRow) (cid : String) : Option CustomerMetrics :=
  match orders.filter (fun o : OrderRow => decide (o.customer_id = cid)) with
  | [] => none
  | o :: os =>
      let grp := o :: os
      let totals := grp.map (fun x => orderTotalOf items x.order_id)
      let n := grp.length
      let spent := totals.sum
      let avg := spent / (n : ℚ)
      let first := tsMinOf o.order_purchase_timestamp
        (os.map (fun x => x.order_purchase_timestamp))
      let last := tsMaxOf o.order_purchase_timestamp
        (os.map (fun x => x.order_purchase_timestamp))
      let days := max (daysBetween first last) 1
      let freq := (n : ℚ) / (days : ℚ) * 365
      some
        { total_orders := n
          total_spent := spent
          avg_order_value := avg
          first_order_date := first
          last_order_date := last
          delivered_orders :=
            (grp.filter (fun x : OrderRow => decide (x.order_status = "delivered"))).length
          days_as_customer := days
          purchase_frequency_annual := freq
          lifetime_value :=
            round2 (avg * freq * (clv.estimated_lifespan_days / 365)) }

/-- One DIM_CUSTOMERS row (`dim_customers.py` steps 9-13): metrics joined
back onto the customer record; customers with no orders get exactly
`total_orders`, `total_spent` and `lifetime_value` zero-filled while the
other aggregate columns stay null; segmentation and region are applied to
the joined row. -/
def mkCustRow (rules : BusinessRules) (regions : RegionsConfig)
    (clv : ClvParams) (orders : List OrderRow) (items : List ItemRow)
    (now : Ts) (key : Nat) (c : CustomerSrcRow) : CustRow :=
  match customerMetricsFor clv orders items c.customer_id with
  | some m =>
      { customer_key := key
        customer_id := c.customer_id
        customer_unique_id := c.customer_unique_id
        customer_city := c.customer_city
        customer_state := c.customer_state
        customer_region := getRegion regions c.customer_state
        customer_segment := segmentCustomer rules m.total_orders (some m.lifetime_value)
        first_order_date := some m.first_order_date
        last_order_date := some m.last_order_date
        total_orders := some m.total_orders
        delivered_orders := some m.delivered_orders
        total_spent := some m.total_spent
        avg_order_value := some m.avg_order_value
        lifetime_value := some m.lifetime_value
        days_as_customer := some m.days_as_customer
        purchase_frequency_annual := some m.purchase_frequency_annual
        created_at := now
        updated_at := now }
  | none =>
      { customer_key := key
        customer_id := c.customer_id
        customer_unique_id := c.customer_unique_id
        customer_city := c.customer_city
        customer_state := c.customer_state
        customer_region := getRegion regions c.customer_state
        customer_segment := segmentCustomer rules 0 (some 0)
        first_order_date := none
        last_order_date := none
        total_orders := some 0
        delivered_orders := none
        total_spent := some 0
        avg_order_value := none
        lifetime_value := some 0
        days_as_customer := none
        purchase_frequency_annual := none
        created_at := now
        updated_at := now }

/-- Emit customer-dimension rows with consecutive surrogate keys
(`customer_key = index + 1`). -/
def custRowsFrom (rules : BusinessRules) (regions : RegionsConfig)
    (clv : ClvParams) (orders : List OrderRow) (items : List ItemRow)
    (now : Ts) : Nat → List CustomerSrcRow → List CustRow
  | _, [] => []
  | k, c :: cs =>
      mkCustRow rules regions clv orders items now k c ::
        custRowsFrom rules regions clv orders items now (k + 1) cs

/-- `CustomerDimensionBuilder.build`: one output row per customers-extract
row, in extract order. -/
def buildDimCustomers (rules : BusinessRules) (regions : RegionsConfig)
    (clv : ClvParams) (customers : List CustomerSrcRow)
    (orders : List OrderRow) (items : List ItemRow) (now : Ts) : List CustRow :=
  custRowsFrom rules regions clv orders items now 1 customers

/-- The metrics group is absent exactly when the customer has no orders. -/
theorem customerMetricsFor_eq_none (clv : ClvParams) (orders : List OrderRow)
    (items : List ItemRow) (cid : String) :
    customerMetricsFor clv orders items cid = none ↔
      orders.filter (fun o : OrderRow => decide (o.customer_id = cid)) = [] := by
  unfold customerMetricsFor
  rcases h : orders.filter (fun o : OrderRow => decide (o.customer_id = cid)) with _ | ⟨o, os⟩
  · simp
  · simp

/-- The `max(_, 1)` floor: any present metrics row has
`days_as_customer ≥ 1`. -/
theorem customerMetricsFor_days_ge_one {clv : ClvParams} {orders : List OrderRow}
    {items : List ItemRow} {cid : String} {m : CustomerMetrics}
    (h : customerMetricsFor clv orders items cid = some m) :
    1 ≤ m.days_as_customer := by
  unfold customerMetricsFor at h
  rcases hf : orders.filter (fun o : OrderRow => decide (o.customer_id = cid)) with _ | ⟨o, os⟩
  · rw [hf] at h; cases h
  · rw [hf] at h
    injection h with h2
    subst h2
    exact le_max_right _ _

/-- The CLV fields of a present metrics row satisfy the frequency and CLV
formulas. -/
theorem customerMetricsFor_formula {clv : ClvParams} {orders : List OrderRow}
    {items : List ItemRow} {cid : String} {m : CustomerMetrics}
    (h : customerMetricsFor clv orders items cid = some m) :
    m.purchase_frequency_annual
        = (m.total_orders : ℚ) / (m.days_as_customer : ℚ) * 365 ∧
      m.lifetime_value
        = round2 (m.avg_order_value * m.purchase_frequency_annual *
            (clv.estimated_lifespan_days / 365)) ∧
      m.total_orders ≠ 0 := by
  unfold customerMetricsFor at h
  rcases hf : orders.filter (fun o : OrderRow => decide (o.customer_id = cid)) with _ | ⟨o, os⟩
  · rw [hf] at h; cases h
  · rw [hf] at h
    injection h with h2
    subst h2
    exact ⟨rfl, rfl, by simp⟩

/-- The first-order date of a present metrics row is the purchase timestamp
of one of the customer's orders and a lower bound for all of them. -/
theorem customerMetricsFor_first {clv : ClvParams} {orders : List OrderRow}
    {items : List ItemRow} {cid : String} {m : CustomerMetrics}
    (h : customerMetricsFor clv orders items cid = some m) :
    (∃ o ∈ orders, o.customer_id = cid ∧
        o.order_purchase_timestamp = m.first_order_date) ∧
    (∀ o ∈ orders, o.customer_id = cid →
        tsLe m.first_order_date o.order_purchase_timestamp) := by
  unfold customerMetricsFor at h
  rcases hf : orders.filter (fun o : OrderRow => decide (o.customer_id = cid)) with _ | ⟨o, os⟩
  · rw [hf] at h; cases h
  · rw [hf] at h
    injection h with h2
    subst h2
    constructor
    · rcases tsMinOf_mem o.order_purchase_timestamp
          (os.map (fun x => x.order_purchase_timestamp)) with he | hm
      · refine ⟨o, ?_, ?_, he.symm⟩
        · have : o ∈ o :: os := List.mem_cons_self _ _
          rw [← hf] at this
          exact (List.mem_filter.mp this).1
        · have : o ∈ o :: os := List.mem_cons_self _ _
          rw [← hf] at this
          have := (List.mem_filter.mp this).2
          simpa using this
      · rcases List.mem_map.mp hm with ⟨o2, ho2, he2⟩
        have ho2f : o2 ∈ o :: os := List.mem_cons_of_mem _ ho2
        rw [← hf] at ho2f
        refine ⟨o2, (List.mem_filter.mp ho2f).1, ?_, he2⟩
        have := (List.mem_filter.mp ho2f).2
        simpa using this
    · intro o2 ho2 hcid
      have ho2f : o2 ∈ orders.filter (fun o : OrderRow => decide (o.customer_id = cid)) :=
        List.mem_filter.mpr ⟨ho2, by simpa using hcid⟩
      rw [hf] at ho2f
      rcases List.mem_cons.mp ho2f with rfl | ho2t
      · exact tsMinOf_le_start _ _
      · exact tsMinOf_le_mem _ _ (List.mem_map_of_mem _ ho2t)

/-- Characterize membership in the surrogate-keyed customer rows. -/
theorem mem_custRowsFrom {rules : BusinessRules} {regions : RegionsConfig}
    {clv : ClvParams} {orders : List OrderRow} {items : List ItemRow}
    {now : Ts} {cs : List CustomerSrcRow} {k : Nat} {r : CustRow}
    (hr : r ∈ custRowsFrom rules regions clv orders items now k cs) :
    ∃ j c, c ∈ cs ∧ r = mkCustRow rules regions clv orders items now j c := by
  induction cs generalizing k with
  | nil => cases hr
  | cons c cs2 ih =>
      rcases List.mem_cons.mp hr with h1 | h2
      · exact ⟨k, c, List.mem_cons_self _ _, h1⟩
      · rcases ih h2 with ⟨j, c2, hc2, he⟩
        exact ⟨j, c2, List.mem_cons_of_mem _ hc2, he⟩

/-- Every customer-extract row yields a dimension row. -/
theorem custRowsFrom_mem_of_mem {rules : BusinessRules}
    {regions : RegionsConfig} {clv : ClvParams} {orders : List OrderRow}
    {items : List ItemRow} {now : Ts} {cs : List CustomerSrcRow}
    {c : CustomerSrcRow} (hc : c ∈ cs) (k : Nat) :
    ∃ j, mkCustRow rules regions clv orders items now j c
      ∈ custRowsFrom rules regions clv orders items now k cs := by
  induction cs generalizing k with
  | nil => cases hc
  | cons c2 cs2 ih =>
      rcases List.mem_cons.mp hc with rfl | h2
      · exact ⟨k, List.mem_cons_self _ _⟩
      · rcases ih h2 (k + 1) with ⟨j, hj⟩
        exact ⟨j, List.mem_cons_of_mem _ hj⟩

/-- The dimension row keeps its customer's business key. -/
theorem mkCustRow_customer_id (rules : BusinessRules) (regions : RegionsConfig)
    (clv : ClvParams) (orders : List OrderRow) (items : List ItemRow)
    (now : Ts) (k : Nat) (c : CustomerSrcRow) :
    (mkCustRow rules regions clv orders items now k c).customer_id
      = c.customer_id := by
  unfold mkCustRow
  rcases h : customerMetricsFor clv orders items c.customer_id with _ | m <;> rfl

/-- C4 (amended): every non-null `days_as_customer` in the customer dimension
is at least 1 (the `max(_, 1)` floor), and every row whose customer has at
least one order carries a non-null value; rows of customers with no orders
keep `days_as_customer` null. -/
theorem dimCustomers_days_floor (rules : BusinessRules)
    (regions : RegionsConfig) (clv : ClvParams)
    (customers : List CustomerSrcRow) (orders : List OrderRow)
    (items : List ItemRow) (now : Ts) :
    (∀ r ∈ buildDimCustomers rules regions clv customers orders items now,
      ∀ d : Int, r.days_as_customer = some d → 1 ≤ d) ∧
    (∀ r ∈ buildDimCustomers rules regions clv customers orders items now,
      orders.filter (fun o : OrderRow => decide (o.customer_id = r.customer_id)) ≠ [] →
        ∃ d : Int, r.days_as_customer = some d ∧ 1 ≤ d) := by
  constructor
  · intro r hr d hd
    rcases mem_custRowsFrom hr with ⟨j, c, _, rfl⟩
    unfold mkCustRow at hd
    rcases h : customerMetricsFor clv orders items c.customer_id with _ | m
    · rw [h] at hd
      cases hd
    · rw [h] at hd
      simp only [CustRow.days_as_customer] at hd
      injection hd with hd2
      subst hd2
      exact customerMetricsFor_days_ge_one h
  · intro r hr hne
    rcases mem_custRowsFrom hr with ⟨j, c, _, rfl⟩
    rw [mkCustRow_customer_id] at hne
    rcases h : customerMetricsFor clv orders items c.customer_id with _ | m
    · exact absurd ((customerMetricsFor_eq_none clv orders items c.customer_id).mp h) hne
    · refine ⟨m.days_as_customer, ?_, customerMetricsFor_days_ge_one h⟩
      unfold mkCustRow
      rw [h]

/-- Configured thresholds used for concrete evaluations (VIP at 5 orders or
value 1000, returning up to 5 orders). -/
def rulesSample : BusinessRules :=
  { vip_customer_min_value := 1000, vip_customer_min_orders := 5
    returning_customer_max_orders := 5 }

/-- Configured CLV lifespan used for concrete evaluations (730 days). -/
def clvSample : ClvParams := { estimated_lifespan_days := 730 }

/-- A one-region configured mapping used for concrete evaluations. -/
def regionsSample : RegionsConfig := [("Southeast", ["SP", "RJ", "MG", "ES"])]

/-- A customer-extract row used for concrete evaluations. -/
def cSample : CustomerSrcRow :=
  { customer_id := "c1", customer_unique_id := "u1"
    customer_city := some "sao paulo", customer_state := some "SP" }

/-- C4 counterexample to the claim as stated: a customer with no orders gets
a row whose `days_as_customer` is null (only total_orders / total_spent /
lifetime_value are zero-filled), so not every row of the dimension satisfies
`days_as_customer ≥ 1`. -/
theorem dimCustomers_days_floor_counterexample :
    ¬ (∀ r ∈ buildDimCustomers rulesSample regionsSample clvSample
          [cSample] [] [] tsEpoch,
        ∃ d : Int, r.days_as_customer = some d ∧ 1 ≤ d) := by
  intro h
  rcases h (mkCustRow rulesSample regionsSample clvSample [] [] tsEpoch 1 cSample)
      (by decide) with ⟨d, hd, _⟩
  rw [show (mkCustRow rulesSample regionsSample clvSample [] [] tsEpoch
      1 cSample).days_as_customer = none from by decide] at hd
  cases hd

/-- An order of the sample customer with purchase timestamp `t`. -/
def orderAt (oid : String) (t : Ts) : OrderRow :=
  { order_id := oid, customer_id := "c1", order_status := "delivered"
    order_purchase_timestamp := t
    order_delivered_customer_date := none
    order_estimated_delivery_date := none }

/-- C4 witness: a customer with one order has `days_as_customer = 1`. -/
theorem dimCustomers_days_floor_witness :
    ((∀ r ∈ buildDimCustomers rulesSample regionsSample clvSample [cSample]
        [orderAt "o1" tsEpoch] [] tsEpoch,
      ∀ d : Int, r.days_as_customer = some d → 1 ≤ d) ∧
    (∀ r ∈ buildDimCustomers rulesSample regionsSample clvSample [cSample]
        [orderAt "o1" tsEpoch] [] tsEpoch,
      [orderAt "o1" tsEpoch].filter
          (fun o : OrderRow => decide (o.customer_id = r.customer_id)) ≠ [] →
        ∃ d : Int, r.days_as_customer = some d ∧ 1 ≤ d)) ∧
    (∃ r ∈ buildDimCustomers rulesSample regionsSample clvSample [cSample]
        [orderAt "o1" tsEpoch] [] tsEpoch, r.days_as_customer = some 1) :=
  ⟨dimCustomers_days_floor rulesSample regionsSample clvSample [cSample]
      [orderAt "o1" tsEpoch] [] tsEpoch,
    by decide⟩

/-- Field values of a dimension row whose customer has metrics. -/
theorem mkCustRow_some_fields (rules : BusinessRules) (regions : RegionsConfig)
    (now : Ts) (j : Nat) {clv : ClvParams} {orders : List OrderRow}
    {items : List ItemRow} {c : CustomerSrcRow} {m : CustomerMetrics}
    (h : customerMetricsFor clv orders items c.customer_id = some m) :
    (mkCustRow rules regions clv orders items now j c).total_orders
        = some m.total_orders ∧
    (mkCustRow rules regions clv orders items now j c).avg_order_value
        = some m.avg_order_value ∧
    (mkCustRow rules regions clv orders items now j c).purchase_frequency_annual
        = some m.purchase_frequency_annual ∧
    (mkCustRow rules regions clv orders items now j c).days_as_customer
        = some m.days_as_customer ∧
    (mkCustRow rules regions clv orders items now j c).lifetime_value
        = some m.lifetime_value := by
  unfold mkCustRow
  rw [h]
  exact ⟨rfl, rfl, rfl, rfl, rfl⟩

/-- Field values of a dimension row whose customer has no orders: exactly
the three zero-filled columns carry 0, the other aggregates are null. -/
theorem mkCustRow_none_fields (rules : BusinessRules) (regions : RegionsConfig)
    (now : Ts) (j : Nat) {clv : ClvParams} {orders : List OrderRow}
    {items : List ItemRow} {c : CustomerSrcRow}
    (h : customerMetricsFor clv orders items c.customer_id = none) :
    (mkCustRow rules regions clv orders items now j c).total_orders = some 0 ∧
    (mkCustRow rules regions clv orders items now j c).total_spent = some 0 ∧
    (mkCustRow rules regions clv orders items now j c).lifetime_value = some 0 ∧
    (mkCustRow rules regions clv orders items now j c).avg_order_value = none ∧
    (mkCustRow rules regions clv orders items now j c).first_order_date = none ∧
    (mkCustRow rules regions clv orders items now j c).last_order_date = none ∧
    (mkCustRow rules regions clv orders items now j c).days_as_customer = none ∧
    (mkCustRow rules regions clv orders items now j c).delivered_orders = none ∧
    (mkCustRow rules regions clv orders items now j c).purchase_frequency_annual
        = none := by
  unfold mkCustRow
  rw [h]
  exact ⟨rfl, rfl, rfl, rfl, rfl, rfl, rfl, rfl, rfl⟩

/-- C5: in every customer-dimension row with at least one order,
`purchase_frequency_annual = total_orders / days_as_customer * 365` and
`lifetime_value = round2(avg_order_value * purchase_frequency_annual *
(estimated_lifespan_days / 365))`. -/
theorem dimCustomers_clv_formula (rules : BusinessRules)
    (regions : RegionsConfig) (clv : ClvParams)
    (customers : List CustomerSrcRow) (orders : List OrderRow)
    (items : List ItemRow) (now : Ts) :
    ∀ r ∈ buildDimCustomers rules regions clv customers orders items now,
      ∀ n : Nat, r.total_orders = some n → n ≠ 0 →
        ∃ avg freq : ℚ, ∃ d : Int,
          r.avg_order_value = some avg ∧
          r.purchase_frequency_annual = some freq ∧
          r.days_as_customer = some d ∧
          freq = (n : ℚ) / (d : ℚ) * 365 ∧
          r.lifetime_value = some (round2 (avg * freq *
            (clv.estimated_lifespan_days / 365))) := by
  intro r hr n hn hn0
  rcases mem_custRowsFrom hr with ⟨j, c, _, rfl⟩
  rcases h : customerMetricsFor clv orders items c.customer_id with _ | m
  · rw [(mkCustRow_none_fields rules regions now j h).1] at hn
    injection hn with hn2
    exact absurd hn2.symm hn0
  · obtain ⟨ht, havg, hfq, hdy, hlv⟩ := mkCustRow_some_fields rules regions now j h
    rw [ht] at hn
    injection hn with hn2
    subst hn2
    rcases customerMetricsFor_formula h with ⟨hfreq, hltv, _⟩
    exact ⟨m.avg_order_value, m.purchase_frequency_annual, m.days_as_customer,
      havg, hfq, hdy, hfreq, by rw [hlv, hltv]⟩

/-- Twelve delivered orders of the sample customer spanning exactly 365 days
(eleven in 1970-01, month index 23640, and one in 1971-01, 365 days later). -/
def wOrders : List OrderRow :=
  [orderAt "o1" ⟨23640, 0, 0⟩, orderAt "o2" ⟨23640, 0, 0⟩,
   orderAt "o3" ⟨23640, 0, 0⟩, orderAt "o4" ⟨23640, 0, 0⟩,
   orderAt "o5" ⟨23640, 0, 0⟩, orderAt "o6" ⟨23640, 0, 0⟩,
   orderAt "o7" ⟨23640, 0, 0⟩, orderAt "o8" ⟨23640, 0, 0⟩,
   orderAt "o9" ⟨23640, 0, 0⟩, orderAt "o10" ⟨23640, 0, 0⟩,
   orderAt "o11" ⟨23640, 0, 0⟩, orderAt "o12" ⟨23652, 0, 0⟩]

/-- One 100-valued item per sample order, so every order total is 100. -/
def wItems : List ItemRow :=
  ["o1", "o2", "o3", "o4", "o5", "o6", "o7", "o8", "o9", "o10", "o11",
    "o12"].map (fun oid =>
      { order_id := oid, order_item_id := 1, product_id := "p1"
        seller_id := "s1", price := 100, freight_value := 0 })


/-- Concrete evaluation of the customer metrics for the 12-order sample:
average order value 100, a 365-day span, annualized frequency 12, and CLV
100 * 12 * (730/365) = 2400. -/
theorem wMetrics : customerMetricsFor clvSample wOrders wItems cSample.customer_id
    = some { total_orders := 12, total_spent := 1200, avg_order_value := 100,
             first_order_date := ⟨23640, 0, 0⟩, last_order_date := ⟨23652, 0, 0⟩,
             delivered_orders := 12, days_as_customer := 365,
             purchase_frequency_annual := 12, lifetime_value := 2400 } := by
  simp [customerMetricsFor, wOrders, wItems, cSample, orderAt, orderTotalOf,
    itemTotal, tsMinOf, tsMaxOf, tsMin2, tsMax2, tsLe, clvSample,
    List.filter_cons, daysBetween, Ts.secIndex, Ts.dayIndex, monthStartDays,
    daysFromCivil, round2, round_eq, Int.fdiv, Int.fmod]
  norm_num

/-- C5 witness: avg_order_value = 100, purchase_frequency_annual = 12 and a
configured lifespan of 730 days give lifetime_value = 2400.00. -/
theorem dimCustomers_clv_formula_witness :
    ((mkCustRow rulesSample regionsSample clvSample wOrders wItems tsEpoch
        1 cSample).total_orders = some 12) ∧ ((12 : Nat) ≠ 0) ∧
    (∃ avg freq : ℚ, ∃ d : Int,
      (mkCustRow rulesSample regionsSample clvSample wOrders wItems tsEpoch
          1 cSample).avg_order_value = some avg ∧
      (mkCustRow rulesSample regionsSample clvSample wOrders wItems tsEpoch
          1 cSample).purchase_frequency_annual = some freq ∧
      (mkCustRow rulesSample regionsSample clvSample wOrders wItems tsEpoch
          1 cSample).days_as_customer = some d ∧
      freq = ((12 : Nat) : ℚ) / (d : ℚ) * 365 ∧
      (mkCustRow rulesSample regionsSample clvSample wOrders wItems tsEpoch
          1 cSample).lifetime_value = some (round2 (avg * freq *
        (clvSample.estimated_lifespan_days / 365)))) ∧
    ((mkCustRow rulesSample regionsSample clvSample wOrders wItems tsEpoch
        1 cSample).avg_order_value = some 100) ∧
    ((mkCustRow rulesSample regionsSample clvSample wOrders wItems tsEpoch
        1 cSample).purchase_frequency_annual = some 12) ∧
    ((mkCustRow rulesSample regionsSample clvSample wOrders wItems tsEpoch
        1 cSample).lifetime_value = some 2400) := by
  have hf := mkCustRow_some_fields rulesSample regionsSample tsEpoch 1 wMetrics
  exact ⟨hf.1, by norm_num,
    dimCustomers_clv_formula rulesSample regionsSample clvSample [cSample]
      wOrders wItems tsEpoch _ (List.mem_cons_self _ _) 12 hf.1 (by norm_num),
    hf.2.1, hf.2.2.1, hf.2.2.2.2⟩

/-- C6: the segment column of every customer-dimension row is computed by
`_segment_customer`, whose decision agrees branch-for-branch with the
specification's precedence list; in particular total_orders = 0 is always
'Inactive' (regardless of lifetime value), and total_orders = 1 with
lifetime value below the VIP value threshold (and a VIP order threshold
above 1) is 'New', never 'Returning'. -/
theorem segment_customer_precedence (rules : BusinessRules)
    (regions : RegionsConfig) (clv : ClvParams)
    (customers : List CustomerSrcRow) (orders : List OrderRow)
    (items : List ItemRow) (now : Ts) :
    (∀ r ∈ buildDimCustomers rules regions clv customers orders items now,
      r.customer_segment
        = segmentCustomer rules (r.total_orders.getD 0) r.lifetime_value) ∧
    (∀ (total : Nat) (ltv : Option ℚ),
      segmentCustomer rules total ltv = segmentSpec rules total ltv) ∧
    (∀ ltv : Option ℚ, segmentCustomer rules 0 ltv = "Inactive") ∧
    (∀ ltv : Option ℚ, 1 < rules.vip_customer_min_orders →
      ltv.getD 0 < rules.vip_customer_min_value →
      segmentCustomer rules 1 ltv = "New") := by
  refine ⟨?_, ?_, ?_, ?_⟩
  · intro r hr
    rcases mem_custRowsFrom hr with ⟨j, c, _, rfl⟩
    unfold mkCustRow
    rcases h : customerMetricsFor clv orders items c.customer_id with _ | m
    · rfl
    · rfl
  · intro total ltv
    unfold segmentCustomer segmentSpec
    rfl
  · intro ltv
    unfold segmentCustomer
    rfl
  · intro ltv h1 h2
    unfold segmentCustomer
    rw [if_neg (by omega)]
    rw [if_neg (by push_neg; exact ⟨by omega, by simpa using h2⟩)]
    rw [if_pos (by omega)]

/-- C6 witness at the sample thresholds (VIP at 5 orders or value 1000): one
order with lifetime value 500 is segmented 'New'. -/
theorem segment_customer_precedence_witness :
    ((1 : Nat) < rulesSample.vip_customer_min_orders ∧
      ((some (500 : ℚ)).getD 0 < rulesSample.vip_customer_min_value)) ∧
    segmentCustomer rulesSample 1 (some (500 : ℚ)) = "New" :=
  ⟨⟨by norm_num [rulesSample], by norm_num [rulesSample]⟩,
    (segment_customer_precedence rulesSample regionsSample clvSample
        [] [] [] tsEpoch).2.2.2 (some 500)
      (by norm_num [rulesSample]) (by norm_num [rulesSample])⟩

/-- C10: a customer with no matching orders yields a dimension row whose
`total_orders`, `total_spent` and `lifetime_value` are exactly zero-filled
while `avg_order_value`, `first_order_date`, `last_order_date`,
`days_as_customer`, `delivered_orders` and `purchase_frequency_annual` stay
null; and every customer-extract row yields a dimension row. -/
theorem dimCustomers_noOrders_fields (rules : BusinessRules)
    (regions : RegionsConfig) (clv : ClvParams)
    (customers : List CustomerSrcRow) (orders : List OrderRow)
    (items : List ItemRow) (now : Ts) :
    (∀ r ∈ buildDimCustomers rules regions clv customers orders items now,
      orders.filter (fun o : OrderRow => decide (o.customer_id = r.customer_id)) = [] →
        r.total_orders = some 0 ∧ r.total_spent = some 0 ∧
        r.lifetime_value = some 0 ∧ r.avg_order_value = none ∧
        r.first_order_date = none ∧ r.last_order_date = none ∧
        r.days_as_customer = none ∧ r.delivered_orders = none ∧
        r.purchase_frequency_annual = none) ∧
    (∀ c ∈ customers,
      ∃ r ∈ buildDimCustomers rules regions clv customers orders items now,
        r.customer_id = c.customer_id) := by
  constructor
  · intro r hr hfil
    rcases mem_custRowsFrom hr with ⟨j, c, _, rfl⟩
    rw [mkCustRow_customer_id] at hfil
    have h : customerMetricsFor clv orders items c.customer_id = none :=
      (customerMetricsFor_eq_none clv orders items c.customer_id).mpr hfil
    exact mkCustRow_none_fields rules regions now j h
  · intro c hc
    rcases @custRowsFrom_mem_of_mem rules regions clv orders items now
        customers c hc 1 with ⟨j, hj⟩
    exact ⟨_, hj, mkCustRow_customer_id rules regions clv orders items now j c⟩

/-- C10 witness: the sample customer with an empty orders extract. -/
theorem dimCustomers_noOrders_fields_witness :
    (∃ r ∈ buildDimCustomers rulesSample regionsSample clvSample [cSample]
        [] [] tsEpoch,
      ([] : List OrderRow).filter
          (fun o : OrderRow => decide (o.customer_id = r.customer_id)) = [] ∧
      r.total_orders = some 0 ∧ r.days_as_customer = none) ∧
    (∀ c ∈ [cSample],
      ∃ r ∈ buildDimCustomers rulesSample regionsSample clvSample [cSample]
          [] [] tsEpoch,
        r.customer_id = c.customer_id) := by
  have h := dimCustomers_noOrders_fields rulesSample regionsSample clvSample
    [cSample] [] [] tsEpoch
  refine ⟨⟨mkCustRow rulesSample regionsSample clvSample [] [] tsEpoch 1 cSample,
    List.mem_cons_self _ _, rfl, ?_, ?_⟩, h.2⟩
  · exact (h.1 _ (List.mem_cons_self _ _) rfl).1
  · exact (h.1 _ (List.mem_cons_self _ _) rfl).2.2.2.2.2.2.1

/-- One record of the cohort analysis join (`fact_cohort_retention.py` steps
2-4): the customer's cohort month (month of `first_order_date` from the
customer dimension), the order's month offset from it, and the customer id.
Orders are inner-joined to the dimension on `customer_id`; a dimension row
with a null `first_order_date` contributes nothing (in the composed pipeline
a matched customer always has one). -/
structure CohortPair where
  cohort_month : Int
  months_since : Int
  customer_id : String
deriving DecidableEq, Repr

/-- The joined analysis records, one per (order, matching dimension row). -/
def cohortPairs (orders : List OrderRow) (dim : List CustRow) :
    List CohortPair :=
  orders.flatMap (fun o =>
    (dim.filter (fun c : CustRow => decide (c.customer_id = o.customer_id))).filterMap
      (fun c => c.first_order_date.map (fun f =>
        { cohort_month := f.month
          months_since := o.order_purchase_timestamp.month - f.month
          customer_id := o.customer_id })))

/-- Ordering of (cohort month, month offset) group keys, as in the builder's
`.sort(['cohort_month_date', 'months_since_first_purchase'])`. -/
def keyLe (a b : Int × Int) : Bool :=
  decide (a.1 < b.1) || (decide (a.1 = b.1) && decide (a.2 ≤ b.2))

/-- Insert a key into a sorted key list. -/
def insertKey (x : Int × Int) : List (Int × Int) → List (Int × Int)
  | [] => [x]
  | y :: ys => if keyLe x y then x :: y :: ys else y :: insertKey x ys

/-- Sort the group keys (insertion sort). -/
def sortKeys : List (Int × Int) → List (Int × Int)
  | [] => []
  | x :: xs => insertKey x (sortKeys xs)

theorem insertKey_perm (x : Int × Int) (l : List (Int × Int)) :
    (insertKey x l).Perm (x :: l) := by
  induction l with
  | nil => exact List.Perm.refl _
  | cons y ys ih =>
      unfold insertKey
      split
      · exact List.Perm.refl _
      · exact (ih.cons y).trans (List.Perm.swap x y ys)

theorem sortKeys_perm (l : List (Int × Int)) : (sortKeys l).Perm l := by
  induction l with
  | nil => exact List.Perm.refl _
  | cons x xs ih =>
      exact (insertKey_perm x (sortKeys xs)).trans (ih.cons x)

/-- Distinct customers counted in one (cohort month, offset) group
(`pl.col('customer_id').n_unique()`). -/
def retainedCount (pairs : List CohortPair) (m k : Int) : Nat :=
  (((pairs.filter (fun p : CohortPair =>
      decide (p.cohort_month = m ∧ p.months_since = k))).map
        (fun p => p.customer_id)).dedup).length

/-- One row of FACT_COHORT_RETENTION. -/
structure CohortRow where
  cohort_retention_key : Nat
  cohort_month : Int
  months_since_first_purchase : Int
  cohort_size : Option Nat
  retained_customers : Nat
  retention_rate : Option ℚ
  created_at : Ts
deriving DecidableEq, Repr

/-- `fact_cohort_retention.py` step 5 for one group key: cohort size is the
cohort's own offset-0 distinct-customer count merged back (null if the cohort
has no offset-0 group), retention rate is retained / size * 100 rounded. -/
def mkCohortRow (pairs : List CohortPair) (now : Ts) (j : Nat)
    (key : Int × Int) : CohortRow :=
  let retained := retainedCount pairs key.1 key.2
  let size : Option Nat :=
    if pairs.any (fun p : CohortPair =>
        decide (p.cohort_month = key.1 ∧ p.months_since = 0))
      then some (retainedCount pairs key.1 0) else none
  { cohort_retention_key := j
    cohort_month := key.1
    months_since_first_purchase := key.2
    cohort_size := size
    retained_customers := retained
    retention_rate :=
      size.map (fun s : Nat => round2 ((retained : ℚ) / (s : ℚ) * 100))
    created_at := now }

/-- Emit the cohort rows with consecutive surrogate keys. -/
def cohortRowsFrom (pairs : List CohortPair) (now : Ts) :
    Nat → List (Int × Int) → List CohortRow
  | _, [] => []
  | j, key :: ks =>
      mkCohortRow pairs now j key :: cohortRowsFrom pairs now (j + 1) ks

/-- `CohortRetentionBuilder.build`: group the joined records by
(cohort month, offset), sorted, one row per distinct group key. -/
def buildCohortRetention (orders : List OrderRow) (dim : List CustRow)
    (now : Ts) : List CohortRow :=
  let pairs := cohortPairs orders dim
  cohortRowsFrom pairs now 1
    (sortKeys ((pairs.map (fun p => (p.cohort_month, p.months_since))).dedup))

/-- Membership in the cohort join: one record per order and matching
dimension row with a non-null first-order date. -/
theorem mem_cohortPairs {orders : List OrderRow} {dim : List CustRow}
    {p : CohortPair} :
    p ∈ cohortPairs orders dim ↔
      ∃ o ∈ orders, ∃ c ∈ dim, c.customer_id = o.customer_id ∧
        ∃ f : Ts, c.first_order_date = some f ∧
          p = { cohort_month := f.month
                months_since := o.order_purchase_timestamp.month - f.month
                customer_id := o.customer_id } := by
  unfold cohortPairs
  rw [List.mem_flatMap]
  constructor
  · rintro ⟨o, ho, hp⟩
    rcases List.mem_filterMap.mp hp with ⟨c, hc, hfc⟩
    rcases List.mem_filter.mp hc with ⟨hcdim, hcid⟩
    rcases Option.map_eq_some'.mp hfc with ⟨f, hf, hpe⟩
    exact ⟨o, ho, c, hcdim, by simpa using hcid, f, hf, hpe.symm⟩
  · rintro ⟨o, ho, c, hc, hcid, f, hf, rfl⟩
    refine ⟨o, ho, List.mem_filterMap.mpr
      ⟨c, List.mem_filter.mpr ⟨hc, by simpa using hcid⟩, ?_⟩⟩
    rw [hf]
    rfl

/-- A non-null first-order date on a dimension row comes from the customer's
metrics group. -/
theorem mkCustRow_first_some {rules : BusinessRules} {regions : RegionsConfig}
    {clv : ClvParams} {orders : List OrderRow} {items : List ItemRow}
    {now : Ts} {j : Nat} {c : CustomerSrcRow} {f : Ts}
    (h : (mkCustRow rules regions clv orders items now j c).first_order_date
      = some f) :
    ∃ m, customerMetricsFor clv orders items c.customer_id = some m ∧
      m.first_order_date = f := by
  unfold mkCustRow at h
  rcases hm : customerMetricsFor clv orders items c.customer_id with _ | m
  · rw [hm] at h
    cases h
  · rw [hm] at h
    simp only [CustRow.first_order_date] at h
    injection h with h2
    exact ⟨m, rfl, h2⟩

/-- In the customer dimension built by the pipeline, a row's first-order date
is attained by one of the customer's orders and precedes all of them. -/
theorem dim_first_bound {rules : BusinessRules} {regions : RegionsConfig}
    {clv : ClvParams} {customers : List CustomerSrcRow}
    {orders : List OrderRow} {items : List ItemRow} {t1 : Ts} {c : CustRow}
    {f : Ts}
    (hc : c ∈ buildDimCustomers rules regions clv customers orders items t1)
    (hf : c.first_order_date = some f) :
    (∃ o1 ∈ orders, o1.customer_id = c.customer_id ∧
        o1.order_purchase_timestamp = f) ∧
    (∀ o ∈ orders, o.customer_id = c.customer_id →
        tsLe f o.order_purchase_timestamp) := by
  rcases mem_custRowsFrom hc with ⟨j, c0, _, rfl⟩
  rcases mkCustRow_first_some hf with ⟨m, hm, hmf⟩
  subst hmf
  rw [mkCustRow_customer_id]
  have h1 := customerMetricsFor_first hm
  constructor
  · rcases h1.1 with ⟨o1, ho1, hcid, hts⟩
    exact ⟨o1, ho1, hcid, hts⟩
  · exact h1.2

/-- Characterize membership in the surrogate-keyed cohort rows. -/
theorem mem_cohortRowsFrom {pairs : List CohortPair} {now : Ts}
    {ks : List (Int × Int)} {j : Nat} {r : CohortRow}
    (hr : r ∈ cohortRowsFrom pairs now j ks) :
    ∃ i key, key ∈ ks ∧ r = mkCohortRow pairs now i key := by
  induction ks generalizing j with
  | nil => cases hr
  | cons key ks2 ih =>
      rcases List.mem_cons.mp hr with h1 | h2
      · exact ⟨j, key, List.mem_cons_self _ _, h1⟩
      · rcases ih h2 with ⟨i, key2, hk2, he⟩
        exact ⟨i, key2, List.mem_cons_of_mem _ hk2, he⟩

/-- The offset-0 row filter over the emitted rows counts the offset-0 keys. -/
theorem cohortRowsFrom_filter_length (pairs : List CohortPair) (now : Ts)
    (m : Int) :
    ∀ (ks : List (Int × Int)) (j : Nat),
      ((cohortRowsFrom pairs now j ks).filter (fun r : CohortRow =>
          decide (r.cohort_month = m ∧ r.months_since_first_purchase = 0))).length
        = (ks.filter (fun key : Int × Int => decide (key = (m, 0)))).length := by
  intro ks
  induction ks with
  | nil => intro j; rfl
  | cons key ks2 ih =>
      intro j
      show ((mkCohortRow pairs now j key :: cohortRowsFrom pairs now (j + 1) ks2).filter
          (fun r : CohortRow =>
            decide (r.cohort_month = m ∧ r.months_since_first_purchase = 0))).length
        = ((key :: ks2).filter (fun key : Int × Int => decide (key = (m, 0)))).length
      rw [List.filter_cons, List.filter_cons]
      have hcm : (mkCohortRow pairs now j key).cohort_month = key.1 := rfl
      have hms : (mkCohortRow pairs now j key).months_since_first_purchase = key.2 := rfl
      by_cases hkey : key = (m, 0)
      · rw [if_pos (by subst hkey; exact decide_eq_true ⟨hcm, hms⟩),
          if_pos (by simp [hkey]), List.length_cons, List.length_cons,
          ih (j + 1)]
      · have hkey2 : ¬ (key.1 = m ∧ key.2 = 0) := by
          intro hand
          exact hkey (Prod.ext_iff.mpr ⟨hand.1, hand.2⟩)
        rw [if_neg (by simp [hcm, hms]; intro h1 h2; exact hkey2 ⟨h1, h2⟩),
          if_neg (by simp [hkey])]
        exact ih (j + 1)

/-- `retained / size * 100` rounds to exactly 100 when retained = size. -/
theorem round2_ratio_self {v : Nat} (h : v ≠ 0) :
    round2 ((v : ℚ) / (v : ℚ) * 100) = 100 := by
  rw [div_self (by exact_mod_cast h), one_mul]
  norm_num [round2, round_eq]

/-- C7: in the cohort-retention table built on the pipeline's customer
dimension, every row has a nonnegative month offset, and every cohort month
present has exactly one offset-0 row, whose retention rate is exactly 100
(retained equals cohort size there). -/
theorem cohort_offset0_and_nonneg (rules : BusinessRules)
    (regions : RegionsConfig) (clv : ClvParams)
    (customers : List CustomerSrcRow) (orders : List OrderRow)
    (items : List ItemRow) (t1 t2 : Ts) :
    (∀ r ∈ buildCohortRetention orders
        (buildDimCustomers rules regions clv customers orders items t1) t2,
      0 ≤ r.months_since_first_purchase) ∧
    (∀ m : Int,
      (∃ r ∈ buildCohortRetention orders
          (buildDimCustomers rules regions clv customers orders items t1) t2,
        r.cohort_month = m) →
      ((buildCohortRetention orders
          (buildDimCustomers rules regions clv customers orders items t1) t2).filter
            (fun r : CohortRow =>
              decide (r.cohort_month = m ∧ r.months_since_first_purchase = 0))).length
          = 1 ∧
      (∀ r ∈ buildCohortRetention orders
          (buildDimCustomers rules regions clv customers orders items t1) t2,
        r.cohort_month = m → r.months_since_first_purchase = 0 →
          r.retention_rate = some 100)) := by
  have hpair : ∀ p ∈ cohortPairs orders
      (buildDimCustomers rules regions clv customers orders items t1),
      0 ≤ p.months_since ∧
      ∃ p0 ∈ cohortPairs orders
          (buildDimCustomers rules regions clv customers orders items t1),
        p0.cohort_month = p.cohort_month ∧ p0.months_since = 0 := by
    intro p hp
    rcases mem_cohortPairs.mp hp with ⟨o, ho, c, hc, hcid, f, hf, rfl⟩
    have hb := dim_first_bound hc hf
    constructor
    · have hle := tsLe_month_le (hb.2 o ho hcid.symm)
      simp only [CohortPair.months_since]
      omega
    · rcases hb.1 with ⟨o1, ho1, hcid1, hts1⟩
      refine ⟨_, mem_cohortPairs.mpr ⟨o1, ho1, c, hc, hcid1.symm, f, hf, rfl⟩,
        rfl, ?_⟩
      simp only [CohortPair.months_since]
      rw [hts1]
      omega
  have hkeymem : ∀ key ∈ sortKeys (((cohortPairs orders
      (buildDimCustomers rules regions clv customers orders items t1)).map
        (fun p => (p.cohort_month, p.months_since))).dedup),
      ∃ p ∈ cohortPairs orders
          (buildDimCustomers rules regions clv customers orders items t1),
        p.cohort_month = key.1 ∧ p.months_since = key.2 := by
    intro key hkey
    have h2 := (sortKeys_perm _).mem_iff.mp hkey
    rcases List.mem_map.mp (List.mem_dedup.mp h2) with ⟨p, hp, hpe⟩
    exact ⟨p, hp, by rw [← hpe], by rw [← hpe]⟩
  constructor
  · intro r hr
    rcases mem_cohortRowsFrom hr with ⟨i, key, hkey, rfl⟩
    rcases hkeymem key hkey with ⟨p, hp, hp1, hp2⟩
    have := (hpair p hp).1
    show 0 ≤ key.2
    omega
  · intro m hm
    rcases hm with ⟨r, hr, hrm⟩
    rcases mem_cohortRowsFrom hr with ⟨i, key, hkey, rfl⟩
    rcases hkeymem key hkey with ⟨p, hp, hp1, hp2⟩
    have hpm : p.cohort_month = m := by
      rw [hp1]
      exact hrm
    rcases (hpair p hp).2 with ⟨p0, hp0, hp01, hp02⟩
    have hp0m : p0.cohort_month = m := by rw [hp01, hpm]
    have hmem0 : ((m : Int), (0 : Int)) ∈ sortKeys (((cohortPairs orders
        (buildDimCustomers rules regions clv customers orders items t1)).map
          (fun p => (p.cohort_month, p.months_since))).dedup) := by
      apply (sortKeys_perm _).mem_iff.mpr
      apply List.mem_dedup.mpr
      exact List.mem_map.mpr ⟨p0, hp0, by rw [hp0m, hp02]⟩
    have hnodup : (sortKeys (((cohortPairs orders
        (buildDimCustomers rules regions clv customers orders items t1)).map
          (fun p => (p.cohort_month, p.months_since))).dedup)).Nodup :=
      ((sortKeys_perm _).nodup_iff).mpr (List.nodup_dedup _)
    constructor
    · show ((cohortRowsFrom _ t2 1 _).filter _).length = 1
      rw [cohortRowsFrom_filter_length]
      rw [filter_eq_singleton_of_nodup hnodup hmem0]
      rfl
    · intro r2 hr2 hc2 hm2
      rcases mem_cohortRowsFrom hr2 with ⟨i2, key2, hkey2, rfl⟩
      have hk1 : key2.1 = m := hc2
      have hk2 : key2.2 = 0 := hm2
      rcases hkeymem key2 hkey2 with ⟨q, hq, _, _⟩
      have hany : (cohortPairs orders
          (buildDimCustomers rules regions clv customers orders items t1)).any
            (fun p : CohortPair =>
              decide (p.cohort_month = key2.1 ∧ p.months_since = 0)) = true := by
        apply List.any_eq_true.mpr
        exact ⟨p0, hp0, decide_eq_true ⟨by rw [hp0m, hk1], hp02⟩⟩
      have hvpos : retainedCount (cohortPairs orders
          (buildDimCustomers rules regions clv customers orders items t1))
            key2.1 0 ≠ 0 := by
        unfold retainedCount
        have hp0f : p0 ∈ (cohortPairs orders
            (buildDimCustomers rules regions clv customers orders items t1)).filter
              (fun p : CohortPair =>
                decide (p.cohort_month = key2.1 ∧ p.months_since = 0)) :=
          List.mem_filter.mpr ⟨hp0, decide_eq_true ⟨by rw [hp0m, hk1], hp02⟩⟩
        have hmm : p0.customer_id ∈ (((cohortPairs orders
            (buildDimCustomers rules regions clv customers orders items t1)).filter
              (fun p : CohortPair =>
                decide (p.cohort_month = key2.1 ∧ p.months_since = 0))).map
                  (fun p => p.customer_id)).dedup :=
          List.mem_dedup.mpr (List.mem_map_of_mem _ hp0f)
        intro hlen
        rw [List.length_eq_zero.mp hlen] at hmm
        cases hmm
      show (mkCohortRow _ t2 i2 key2).retention_rate = some 100
      unfold mkCohortRow
      simp only [hany, if_true]
      rw [hk2]
      rw [Option.map_some']
      rw [round2_ratio_self hvpos]

/-- C7 witness: one customer with a single order in month 23640 (1970-01)
yields one cohort with exactly one offset-0 row at retention 100. -/
theorem cohort_offset0_and_nonneg_witness :
    (∃ r ∈ buildCohortRetention [orderAt "o1" ⟨23640, 0, 0⟩]
        (buildDimCustomers rulesSample regionsSample clvSample [cSample]
          [orderAt "o1" ⟨23640, 0, 0⟩] [] tsEpoch) tsEpoch,
      r.cohort_month = 23640) ∧
    ((buildCohortRetention [orderAt "o1" ⟨23640, 0, 0⟩]
        (buildDimCustomers rulesSample regionsSample clvSample [cSample]
          [orderAt "o1" ⟨23640, 0, 0⟩] [] tsEpoch) tsEpoch).filter
          (fun r : CohortRow =>
            decide (r.cohort_month = 23640 ∧
              r.months_since_first_purchase = 0))).length = 1 ∧
    (∀ r ∈ buildCohortRetention [orderAt "o1" ⟨23640, 0, 0⟩]
        (buildDimCustomers rulesSample regionsSample clvSample [cSample]
          [orderAt "o1" ⟨23640, 0, 0⟩] [] tsEpoch) tsEpoch,
      r.cohort_month = 23640 → r.months_since_first_purchase = 0 →
        r.retention_rate = some 100) := by
  have hex : ∃ r ∈ buildCohortRetention [orderAt "o1" ⟨23640, 0, 0⟩]
      (buildDimCustomers rulesSample regionsSample clvSample [cSample]
        [orderAt "o1" ⟨23640, 0, 0⟩] [] tsEpoch) tsEpoch,
      r.cohort_month = 23640 :=
    ⟨_, List.mem_cons_self _ _, rfl⟩
  have h := (cohort_offset0_and_nonneg rulesSample regionsSample clvSample
    [cSample] [orderAt "o1" ⟨23640, 0, 0⟩] [] tsEpoch tsEpoch).2 23640 hex
  exact ⟨hex, h.1, h.2⟩
/-- The fixed Portuguese-to-English category translation table hard-coded
in `ProductDimensionBuilder`. -/
def categoryTranslation : List (String × String) :=
  [("beleza_saude", "health_beauty"),
   ("informatica_acessorios", "computers_accessories"),
   ("automotivo", "automotive"),
   ("cama_mesa_banho", "bed_bath_table"),
   ("moveis_decoracao", "furniture_decor"),
   ("esporte_lazer", "sports_leisure"),
   ("perfumaria", "perfumery"),
   ("utilidades_domesticas", "housewares"),
   ("telefonia", "telephony"),
   ("relogios_presentes", "watches_gifts"),
   ("alimentos_bebidas", "food_drinks"),
   ("bebes", "baby"),
   ("papelaria", "stationery"),
   ("tablets_impressao_imagem", "tablets_printing_image"),
   ("brinquedos", "toys"),
   ("telefonia_fixa", "fixed_telephony"),
   ("ferramentas_jardim", "garden_tools"),
   ("fashion_bolsas_e_acessorios", "fashion_bags_accessories"),
   ("eletrônicos", "electronics"),
   ("eletrodomesticos", "home_appliances"),
   ("livros_interesse_geral", "books_general_interest"),
   ("construcao_ferramentas_construcao", "construction_tools_construction"),
   ("casa_construcao", "home_construction"),
   ("instrumentos_musicais", "musical_instruments"),
   ("eletrodomesticos_2", "home_appliances_2"),
   ("livros_tecnicos", "books_technical"),
   ("cool_stuff", "cool_stuff"),
   ("malas_acessorios", "luggage_accessories"),
   ("climatizacao", "air_conditioning"),
   ("construcao_ferramentas_iluminacao", "construction_tools_lighting"),
   ("artigos_de_festas", "party_supplies"),
   ("construcao_ferramentas_seguranca", "construction_tools_safety"),
   ("industria_comercio_e_negocios", "industry_commerce_business"),
   ("livros_importados", "books_imported"),
   ("pcs", "computers"),
   ("artigos_de_natal", "christmas_articles"),
   ("fashion_calcados", "fashion_shoes"),
   ("flores", "flowers"),
   ("artes_e_artesanato", "arts_crafts"),
   ("fraldas_higiene", "diapers_hygiene"),
   ("fashion_underwear_e_moda_praia", "fashion_underwear_beach"),
   ("pet_shop", "pet_shop"),
   ("moveis_sala", "living_room_furniture"),
   ("construcao_ferramentas_jardim", "construction_tools_garden"),
   ("fashion_esporte", "fashion_sports"),
   ("sinalizacao_e_seguranca", "signaling_security"),
   ("la_cuisine", "la_cuisine"),
   ("dvds_blu_ray", "dvds_blu_ray"),
   ("fashion_roupa_masculina", "fashion_male_clothing"),
   ("portateis_casa_forno_e_cafe", "portable_kitchen_food_processor"),
   ("cds_dvds_musicais", "cds_dvds_musicals"),
   ("consoles_games", "consoles_games"),
   ("audio", "audio"),
   ("fashion_roupa_feminina", "fashion_female_clothing"),
   ("seguros_e_servicos", "insurance_services"),
   ("portateis_cozinha_e_preparadores_de_alimentos", "portable_kitchen"),
   ("casa_conforto_2", "home_comfort_2"),
   ("agro_industria_e_comercio", "agro_industry_commerce"),
   ("market_place", "market_place"),
   ("fashion_roupa_infanto_juvenil", "fashion_children_clothes"),
   ("musica", "music"),
   ("casa_conforto", "home_comfort"),
   ("cine_foto", "cine_photo"),
   ("moveis_cozinha_area_de_servico_jantar_e_jardim", "kitchen_dining_laundry_garden_furniture"),
   ("moveis_escritorio", "office_furniture"),
   ("moveis_quarto", "bedroom_furniture"),
   ("fashion_roupa_de_banho", "fashion_swimwear"),
   ("alimentos", "food"),
   ("artes", "arts"),
   ("eletronicos", "electronics"),
   ("livros", "books")]

/-- The fixed ordered category-segment grouping hard-coded in
`ProductDimensionBuilder` (first match wins; final catch-all is empty). -/
def categorySegments : List (String × List String) :=
  [("Electronics", ["computers_accessories", "telephony", "electronics", "tablets_printing_image", "fixed_telephony", "computers", "consoles_games", "audio", "cine_photo"]),
   ("Home & Furniture", ["bed_bath_table", "furniture_decor", "housewares", "home_appliances", "home_construction", "air_conditioning", "living_room_furniture", "kitchen_dining_laundry_garden_furniture", "office_furniture", "bedroom_furniture", "home_comfort", "home_appliances_2", "home_comfort_2", "la_cuisine"]),
   ("Fashion & Beauty", ["health_beauty", "perfumery", "fashion_bags_accessories", "fashion_shoes", "fashion_underwear_beach", "fashion_sports", "fashion_male_clothing", "fashion_female_clothing", "fashion_children_clothes", "fashion_swimwear", "watches_gifts"]),
   ("Sports & Leisure", ["sports_leisure", "toys", "baby", "pet_shop", "diapers_hygiene"]),
   ("Books & Media", ["books_general_interest", "books_technical", "books_imported", "dvds_blu_ray", "cds_dvds_musicals", "music", "stationery", "arts_crafts", "arts"]),
   ("Automotive & Tools", ["automotive", "garden_tools", "construction_tools_construction", "construction_tools_lighting", "construction_tools_safety", "construction_tools_garden", "signaling_security"]),
   ("Food & Drinks", ["food_drinks", "food", "portable_kitchen_food_processor", "portable_kitchen"]),
   ("Gifts & Party", ["party_supplies", "christmas_articles", "flowers", "cool_stuff"]),
   ("Business & Industry", ["industry_commerce_business", "agro_industry_commerce", "office_furniture", "musical_instruments"]),
   ("Services", ["insurance_services", "market_place"]),
   ("Other", [])]

/-- `ProductDimensionBuilder._get_category_segment`: first segment whose
member list contains the (translated) category, else 'Other'. -/
def getCategorySegment (category : String) : String :=
  match categorySegments.find? (fun p => decide (category ∈ p.2)) with
  | some p => p.1
  | none => "Other"

/-- The translated category of a product: translation-table hit, else the
original name, else the generic `"uncategorized"` label for products with no
category at all. -/
def categoryEnglishOf (p : ProductSrcRow) : String :=
  match p.product_category_name.bind
      (fun s => lookupLast categoryTranslation s) with
  | some e => e
  | none => p.product_category_name.getD "uncategorized"

/-- The derived volume column (`length * height * width`, rounded to 2
decimals, null when any dimension is null), added by the products
extractor. -/
def volumeOf (p : ProductSrcRow) : Option ℚ :=
  match p.product_length_cm, p.product_height_cm, p.product_width_cm with
  | some l, some h, some w => some (round2 (l * h * w))
  | _, _, _ => none

/-- The derived photos flag (`product_photos_qty > 0`; null counts as
false), added by the products extractor. -/
def hasPhotosOf (p : ProductSrcRow) : Bool :=
  match p.product_photos_qty with
  | some q => decide (0 < q)
  | none => false

/-- One DIM_PRODUCTS row (`ProductDimensionBuilder.build`): translation,
segment, derived columns, surrogate key, timestamp.  The extractor has
already rejected null `product_id`, so the builder's defensive null-id drop
never removes a row. -/
def mkProductRow (now : Ts) (k : Nat) (p : ProductSrcRow) : ProductRow :=
  { product_key := k
    product_id := p.product_id
    product_category_name := p.product_category_name
    product_category_english := categoryEnglishOf p
    product_category_segment := getCategorySegment (categoryEnglishOf p)
    product_weight_g := p.product_weight_g
    product_length_cm := p.product_length_cm
    product_height_cm := p.product_height_cm
    product_width_cm := p.product_width_cm
    product_volume_cm3 := volumeOf p
    product_photos_qty := p.product_photos_qty
    has_photos := hasPhotosOf p
    created_at := now }

/-- Emit product rows with consecutive surrogate keys. -/
def productRowsFrom (now : Ts) : Nat → List ProductSrcRow → List ProductRow
  | _, [] => []
  | k, p :: ps => mkProductRow now k p :: productRowsFrom now (k + 1) ps

/-- `ProductDimensionBuilder.build`. -/
def buildDimProducts (products : List ProductSrcRow) (now : Ts) :
    List ProductRow :=
  productRowsFrom now 1 products

/-- The fixed payment-type categorization hard-coded in
`PaymentTypeDimensionBuilder`. -/
def paymentCategories : List (String × String) :=
  [("credit_card", "Credit"), ("boleto", "Cash/Banking"),
   ("debit_card", "Debit"), ("voucher", "Voucher"),
   ("not_defined", "Unknown")]

/-- Distinct values in first-occurrence order
(`Series.dropna().unique()`). -/
def uniqueFirst : List String → List String
  | [] => []
  | x :: xs => x :: uniqueFirst (xs.filter (fun y => decide (y ≠ x)))
termination_by l => l.length
decreasing_by
  simp only [List.length_cons]
  have := List.length_filter_le (fun y => decide (y ≠ x)) xs
  omega

/-- One DIM_PAYMENT_TYPE row: category from the fixed lookup, 'Other' when
unmapped. -/
def mkPaymentTypeRow (now : Ts) (k : Nat) (pt : String) : PaymentTypeRow :=
  { payment_type_key := k
    payment_type := pt
    payment_category := (lookupLast paymentCategories pt).getD "Other"
    created_at := now }

/-- Emit payment-type rows with consecutive surrogate keys. -/
def paymentTypeRowsFrom (now : Ts) : Nat → List String → List PaymentTypeRow
  | _, [] => []
  | k, pt :: pts =>
      mkPaymentTypeRow now k pt :: paymentTypeRowsFrom now (k + 1) pts

/-- `PaymentTypeDimensionBuilder.build`: one row per distinct non-null
payment type observed in the payments extract. -/
def buildDimPaymentType (payments : List PaymentRow) (now : Ts) :
    List PaymentTypeRow :=
  paymentTypeRowsFrom now 1
    (uniqueFirst (payments.filterMap (fun p => p.payment_type)))

/-- The validated source extracts consumed by the Transform phase. -/
structure Extracts where
  orders : List OrderRow
  order_items : List ItemRow
  customers : List CustomerSrcRow
  products : List ProductSrcRow
  payments : List PaymentRow
  reviews : List ReviewRow

/-- The configuration consumed by the Transform phase. -/
structure PipelineConfig where
  rules : BusinessRules
  regions : RegionsConfig
  clv : ClvParams
  dateStart : Int
  dateEnd : Int

/-- The in-memory warehouse assembled by the orchestrator.  `dim_date` is
stored as `FactOrdersBuilder.build` leaves it (with the `date_str` column it
assigns in place). -/
structure Warehouse where
  dim_date : List DateRow
  dim_products : List ProductRow
  dim_payment_type : List PaymentTypeRow
  dim_customers : List CustRow
  fact_orders : List FactRow
  fact_cohort_retention : List CohortRow
deriving DecidableEq, Repr

/-- `TransformOrchestrator.run_all`: the six builders in dependency order,
assembled into one result. -/
def runAll (cfg : PipelineConfig) (ex : Extracts) (now : Ts) : Warehouse :=
  let dimDate := buildDimDate cfg.dateStart cfg.dateEnd now
  let dimProducts := buildDimProducts ex.products now
  let dimPaymentType := buildDimPaymentType ex.payments now
  let dimCustomers := buildDimCustomers cfg.rules cfg.regions cfg.clv
    ex.customers ex.orders ex.order_items now
  let fact := buildFactOrders ex.orders ex.order_items ex.payments ex.reviews
    dimCustomers dimProducts dimPaymentType dimDate now
  let cohort := buildCohortRetention ex.orders dimCustomers now
  { dim_date := fact.2
    dim_products := dimProducts
    dim_payment_type := dimPaymentType
    dim_customers := dimCustomers
    fact_orders := fact.1
    fact_cohort_retention := cohort }

/-- Erase the `created_at` timestamp column of a date row. -/
def stripDateRow (r : DateRow) : DateRow := { r with created_at := tsEpoch }

/-- Erase the `created_at` timestamp column of a product row. -/
def stripProductRow (r : ProductRow) : ProductRow := { r with created_at := tsEpoch }

/-- Erase the `created_at` timestamp column of a payment-type row. -/
def stripPaymentTypeRow (r : PaymentTypeRow) : PaymentTypeRow :=
  { r with created_at := tsEpoch }

/-- Erase the `created_at` / `updated_at` timestamp columns of a customer
row. -/
def stripCustRow (r : CustRow) : CustRow :=
  { r with created_at := tsEpoch, updated_at := tsEpoch }

/-- Erase the `created_at` timestamp column of a fact row. -/
def stripFactRow (r : FactRow) : FactRow := { r with created_at := tsEpoch }

/-- Erase the `created_at` timestamp column of a cohort row. -/
def stripCohortRow (r : CohortRow) : CohortRow := { r with created_at := tsEpoch }

/-- Erase every timestamp column of the warehouse. -/
def stripWarehouse (w : Warehouse) : Warehouse :=
  { dim_date := w.dim_date.map stripDateRow
    dim_products := w.dim_products.map stripProductRow
    dim_payment_type := w.dim_payment_type.map stripPaymentTypeRow
    dim_customers := w.dim_customers.map stripCustRow
    fact_orders := w.fact_orders.map stripFactRow
    fact_cohort_retention := w.fact_cohort_retention.map stripCohortRow }

theorem strip_buildDimDate (s e : Int) (tA tB : Ts) :
    (buildDimDate s e tA).map stripDateRow
      = (buildDimDate s e tB).map stripDateRow := by
  unfold buildDimDate
  rw [List.map_map, List.map_map]
  apply List.map_congr_left
  intro i _
  rfl

theorem strip_mkCustRow (rules : BusinessRules) (regions : RegionsConfig)
    (clv : ClvParams) (orders : List OrderRow) (items : List ItemRow)
    (tA tB : Ts) (k : Nat) (c : CustomerSrcRow) :
    stripCustRow (mkCustRow rules regions clv orders items tA k c)
      = stripCustRow (mkCustRow rules regions clv orders items tB k c) := by
  unfold mkCustRow
  rcases customerMetricsFor clv orders items c.customer_id with _ | m <;> rfl

theorem strip_custRowsFrom (rules : BusinessRules) (regions : RegionsConfig)
    (clv : ClvParams) (orders : List OrderRow) (items : List ItemRow)
    (tA tB : Ts) :
    ∀ (k : Nat) (cs : List CustomerSrcRow),
      (custRowsFrom rules regions clv orders items tA k cs).map stripCustRow
        = (custRowsFrom rules regions clv orders items tB k cs).map stripCustRow := by
  intro k cs
  induction cs generalizing k with
  | nil => rfl
  | cons c cs2 ih =>
      simp only [custRowsFrom, List.map_cons]
      rw [strip_mkCustRow rules regions clv orders items tA tB, ih (k + 1)]

theorem strip_productRowsFrom (tA tB : Ts) :
    ∀ (k : Nat) (ps : List ProductSrcRow),
      (productRowsFrom tA k ps).map stripProductRow
        = (productRowsFrom tB k ps).map stripProductRow := by
  intro k ps
  induction ps generalizing k with
  | nil => rfl
  | cons p ps2 ih =>
      simp only [productRowsFrom, List.map_cons]
      rw [ih (k + 1)]
      rfl

theorem strip_paymentTypeRowsFrom (tA tB : Ts) :
    ∀ (k : Nat) (l : List String),
      (paymentTypeRowsFrom tA k l).map stripPaymentTypeRow
        = (paymentTypeRowsFrom tB k l).map stripPaymentTypeRow := by
  intro k l
  induction l generalizing k with
  | nil => rfl
  | cons pt l2 ih =>
      simp only [paymentTypeRowsFrom, List.map_cons]
      rw [ih (k + 1)]
      rfl

theorem strip_factRowsFrom (custL prodL payL : List (String × Nat))
    (dateL : List (Int × Int)) (tA tB : Ts) :
    ∀ (k : Nat) (l : List (OrderStage × Option ℚ)),
      (factRowsFrom custL prodL payL dateL tA k l).map stripFactRow
        = (factRowsFrom custL prodL payL dateL tB k l).map stripFactRow := by
  intro k l
  induction l generalizing k with
  | nil => rfl
  | cons w ws ih =>
      simp only [factRowsFrom, List.map_cons]
      rw [ih (k + 1)]
      rfl

theorem strip_cohortRowsFrom (pairs : List CohortPair) (tA tB : Ts) :
    ∀ (k : Nat) (ks : List (Int × Int)),
      (cohortRowsFrom pairs tA k ks).map stripCohortRow
        = (cohortRowsFrom pairs tB k ks).map stripCohortRow := by
  intro k ks
  induction ks generalizing k with
  | nil => rfl
  | cons key ks2 ih =>
      simp only [cohortRowsFrom, List.map_cons]
      rw [ih (k + 1)]
      rfl

theorem map_pair_strip_cust (l : List CustRow) :
    (l.map stripCustRow).map (fun r : CustRow => (r.customer_id, r.customer_key))
      = l.map (fun r : CustRow => (r.customer_id, r.customer_key)) := by
  rw [List.map_map]
  apply List.map_congr_left
  intro r _
  rfl

theorem map_pair_strip_prod (l : List ProductRow) :
    (l.map stripProductRow).map (fun r : ProductRow => (r.product_id, r.product_key))
      = l.map (fun r : ProductRow => (r.product_id, r.product_key)) := by
  rw [List.map_map]
  apply List.map_congr_left
  intro r _
  rfl

theorem map_pair_strip_pt (l : List PaymentTypeRow) :
    (l.map stripPaymentTypeRow).map
        (fun r : PaymentTypeRow => (r.payment_type, r.payment_type_key))
      = l.map (fun r : PaymentTypeRow => (r.payment_type, r.payment_type_key)) := by
  rw [List.map_map]
  apply List.map_congr_left
  intro r _
  rfl

theorem map_pair_strip_date (l : List DateRow) :
    (l.map stripDateRow).map (fun r : DateRow => (r.full_date, r.date_key))
      = l.map (fun r : DateRow => (r.full_date, r.date_key)) := by
  rw [List.map_map]
  apply List.map_congr_left
  intro r _
  rfl

/-- The cohort join only reads timestamp-invariant columns of the customer
dimension. -/
theorem cohortPairs_congr {orders : List OrderRow} {A B : List CustRow}
    (h : A.map stripCustRow = B.map stripCustRow) :
    cohortPairs orders A = cohortPairs orders B := by
  unfold cohortPairs
  congr 1
  funext o
  induction A generalizing B with
  | nil =>
      cases B with
      | nil => rfl
      | cons b bs => simp at h
  | cons a as ih =>
      cases B with
      | nil => simp at h
      | cons b bs =>
          simp only [List.map_cons, List.cons.injEq] at h
          obtain ⟨hab, htail⟩ := h
          have hid : a.customer_id = b.customer_id := by
            have h2 := congrArg CustRow.customer_id hab
            simpa [stripCustRow] using h2
          have hfst : a.first_order_date = b.first_order_date := by
            have h2 := congrArg CustRow.first_order_date hab
            simpa [stripCustRow] using h2
          simp only [List.filter_cons]
          by_cases hc : a.customer_id = o.customer_id
          · rw [if_pos (decide_eq_true hc),
              if_pos (decide_eq_true (by rw [← hid]; exact hc))]
            simp only [List.filterMap_cons]
            rw [hfst, ih htail]
          · rw [if_neg (by simpa using hc),
              if_neg (by simpa using (by rw [← hid]; exact hc : ¬ b.customer_id = o.customer_id))]
            exact ih htail

/-- The fact builder reads only timestamp-invariant columns of the four
dimensions, so its fact table and its mutated date dimension agree after
timestamp erasure across runs. -/
theorem strip_buildFactOrders (orders : List OrderRow) (items : List ItemRow)
    (payments : List PaymentRow) (reviews : List ReviewRow)
    {cA cB : List CustRow} {pA pB : List ProductRow}
    {ptA ptB : List PaymentTypeRow} {dA dB : List DateRow} (tA tB : Ts)
    (hc : cA.map stripCustRow = cB.map stripCustRow)
    (hp : pA.map stripProductRow = pB.map stripProductRow)
    (hpt : ptA.map stripPaymentTypeRow = ptB.map stripPaymentTypeRow)
    (hd : dA.map stripDateRow = dB.map stripDateRow) :
    ((buildFactOrders orders items payments reviews cA pA ptA dA tA).1.map
        stripFactRow
      = (buildFactOrders orders items payments reviews cB pB ptB dB tB).1.map
        stripFactRow) ∧
    ((buildFactOrders orders items payments reviews cA pA ptA dA tA).2.map
        stripDateRow
      = (buildFactOrders orders items payments reviews cB pB ptB dB tB).2.map
        stripDateRow) := by
  have hcustL : cA.map (fun r : CustRow => (r.customer_id, r.customer_key))
      = cB.map (fun r : CustRow => (r.customer_id, r.customer_key)) := by
    rw [← map_pair_strip_cust cA, hc, map_pair_strip_cust]
  have hprodL : pA.map (fun r : ProductRow => (r.product_id, r.product_key))
      = pB.map (fun r : ProductRow => (r.product_id, r.product_key)) := by
    rw [← map_pair_strip_prod pA, hp, map_pair_strip_prod]
  have hptL : ptA.map (fun r : PaymentTypeRow => (r.payment_type, r.payment_type_key))
      = ptB.map (fun r : PaymentTypeRow => (r.payment_type, r.payment_type_key)) := by
    rw [← map_pair_strip_pt ptA, hpt, map_pair_strip_pt]
  have hsetstrip : ∀ (l : List DateRow),
      (l.map (fun r : DateRow =>
          { r with date_str := some (dateKeyOfDay r.full_date) })).map stripDateRow
        = (l.map stripDateRow).map (fun r : DateRow =>
          { r with date_str := some (dateKeyOfDay r.full_date) }) := by
    intro l
    rw [List.map_map, List.map_map]
    apply List.map_congr_left
    intro r _
    rfl
  have hupd : (dA.map (fun r : DateRow =>
      { r with date_str := some (dateKeyOfDay r.full_date) })).map stripDateRow
      = (dB.map (fun r : DateRow =>
      { r with date_str := some (dateKeyOfDay r.full_date) })).map stripDateRow := by
    rw [hsetstrip, hsetstrip, hd]
  have hdateL : (dA.map (fun r : DateRow =>
      { r with date_str := some (dateKeyOfDay r.full_date) })).map
        (fun r : DateRow => (r.full_date, r.date_key))
      = (dB.map (fun r : DateRow =>
      { r with date_str := some (dateKeyOfDay r.full_date) })).map
        (fun r : DateRow => (r.full_date, r.date_key)) := by
    rw [← map_pair_strip_date, hupd, map_pair_strip_date]
  constructor
  · show (factRowsFrom
        (cA.map (fun r : CustRow => (r.customer_id, r.customer_key)))
        (pA.map (fun r : ProductRow => (r.product_id, r.product_key)))
        (ptA.map (fun r : PaymentTypeRow => (r.payment_type, r.payment_type_key)))
        ((dA.map (fun r : DateRow =>
          { r with date_str := some (dateKeyOfDay r.full_date) })).map
            (fun r : DateRow => (r.full_date, r.date_key)))
        tA 1
        (mergeReviews (ordersWithItemsPayments orders items payments) reviews)).map
          stripFactRow
      = (factRowsFrom
        (cB.map (fun r : CustRow => (r.customer_id, r.customer_key)))
        (pB.map (fun r : ProductRow => (r.product_id, r.product_key)))
        (ptB.map (fun r : PaymentTypeRow => (r.payment_type, r.payment_type_key)))
        ((dB.map (fun r : DateRow =>
          { r with date_str := some (dateKeyOfDay r.full_date) })).map
            (fun r : DateRow => (r.full_date, r.date_key)))
        tB 1
        (mergeReviews (ordersWithItemsPayments orders items payments) reviews)).map
          stripFactRow
    rw [hcustL, hprodL, hptL, hdateL]
    exact strip_factRowsFrom _ _ _ _ tA tB 1 _
  · exact hupd

/-- C9: the Transform pipeline is a deterministic function of the source
extracts and the configuration - two runs differ at most in the
`created_at` / `updated_at` timestamp columns. -/
theorem runAll_deterministic (cfg : PipelineConfig) (ex : Extracts)
    (tA tB : Ts) :
    stripWarehouse (runAll cfg ex tA) = stripWarehouse (runAll cfg ex tB) := by
  have hc : (buildDimCustomers cfg.rules cfg.regions cfg.clv ex.customers
        ex.orders ex.order_items tA).map stripCustRow
      = (buildDimCustomers cfg.rules cfg.regions cfg.clv ex.customers
        ex.orders ex.order_items tB).map stripCustRow :=
    strip_custRowsFrom cfg.rules cfg.regions cfg.clv ex.orders ex.order_items
      tA tB 1 ex.customers
  have hp : (buildDimProducts ex.products tA).map stripProductRow
      = (buildDimProducts ex.products tB).map stripProductRow :=
    strip_productRowsFrom tA tB 1 ex.products
  have hpt : (buildDimPaymentType ex.payments tA).map stripPaymentTypeRow
      = (buildDimPaymentType ex.payments tB).map stripPaymentTypeRow :=
    strip_paymentTypeRowsFrom tA tB 1
      (uniqueFirst (ex.payments.filterMap (fun p : PaymentRow => p.payment_type)))
  have hd := strip_buildDimDate cfg.dateStart cfg.dateEnd tA tB
  have hfact := strip_buildFactOrders ex.orders ex.order_items ex.payments
    ex.reviews tA tB hc hp hpt hd
  have hpairs : cohortPairs ex.orders (buildDimCustomers cfg.rules cfg.regions
        cfg.clv ex.customers ex.orders ex.order_items tA)
      = cohortPairs ex.orders (buildDimCustomers cfg.rules cfg.regions
        cfg.clv ex.customers ex.orders ex.order_items tB) :=
    cohortPairs_congr hc
  have hcohort : (buildCohortRetention ex.orders (buildDimCustomers cfg.rules
        cfg.regions cfg.clv ex.customers ex.orders ex.order_items tA) tA).map
          stripCohortRow
      = (buildCohortRetention ex.orders (buildDimCustomers cfg.rules
        cfg.regions cfg.clv ex.customers ex.orders ex.order_items tB) tB).map
          stripCohortRow := by
    unfold buildCohortRetention
    rw [hpairs]
    exact strip_cohortRowsFrom _ tA tB 1 _
  show Warehouse.mk _ _ _ _ _ _ = Warehouse.mk _ _ _ _ _ _
  rw [Warehouse.mk.injEq]
  exact ⟨hfact.2, hp, hpt, hc, hfact.1, hcohort⟩
